import Mathlib

/-!
Verification development for the sleek-coach AI-coach core
(`apps/api/app/coach_ai/...` and `apps/api/app/checkins/service.py`).

The Python source is embedded shallowly:

* strings are Lean `String`s; Python `str.lower()` is ASCII `Char.toLower`
  (all texts examined by the theorems are ASCII);
* the regular expressions of the safety policies are embedded by an
  executable backtracking matcher (`RxM`) whose combinators reproduce the
  semantics of Python `re` for the constructs actually used by the source
  (literals, `\s* \s+ \d+ \w+`, alternation with left preference, greedy
  bounded repetition of `\d`, optional groups, `re.search` leftmost scan,
  `re.findall` non-overlapping scan);
* Python truthiness of `str | None` fields (`if result.message:`) is the
  predicate `truthyS`;
* `async` functions whose awaited effects are logging only are embedded as
  pure functions (the violation logging of the policy engine is
  best-effort/fire-and-forget and never alters the returned result);
* machine floats of the weight-trend arithmetic are embedded as `ℚ`
  (the spec's claims are stated "up to rounding");
* JSON payloads are embedded by the flat value universe `PyVal`
  (null / bool / int / string): no claim examined here depends on nested
  payloads, and JSON round-tripping on this universe is the identity
  except for `null`, exactly as in the source's cache-read check.
-/

set_option maxRecDepth 16384

namespace SleekCoach

/-! ### Character classes and Python string helpers -/

/-- ASCII embedding of Python `str.lower()`. -/
def pyLower (s : String) : List Char := s.data.map Char.toLower

/-- Python regex `\s` (ASCII part). -/
def isSpaceC (c : Char) : Bool :=
  c = ' ' || c = '\t' || c = '\n' || c = '\x0d' || c = '\x0b' || c = '\x0c'

/-- Python regex `\d` (ASCII part). -/
def isDigitC (c : Char) : Bool := '0' ≤ c && c ≤ '9'

/-- Python regex `\w` (ASCII part). -/
def isWordC (c : Char) : Bool :=
  ('a' ≤ c && c ≤ 'z') || ('A' ≤ c && c ≤ 'Z') || isDigitC c || c = '_'

/-- Does `l` start with `p`?  (Embeds Python `str.startswith`.) -/
def startsWithL : List Char → List Char → Bool
  | _, [] => true
  | [], _ :: _ => false
  | c :: cs, p :: ps => c = p && startsWithL cs ps

/-- Embeds the Python substring test `pat in hay`. -/
def containsSubL (pat : List Char) : List Char → Bool
  | [] => pat.isEmpty
  | c :: t => startsWithL (c :: t) pat || containsSubL pat t

/-- Substring test on `String`s (Python `pat in hay`). -/
def containsS (hay pat : String) : Bool := containsSubL pat.data hay.data

/-- Python truthiness of a `str | None` value: `None` and `""` are falsy. -/
def truthyS : Option String → Bool
  | none => false
  | some s => !s.isEmpty

/-! ### A backtracking matcher embedding the source's regexes

A matcher takes the text at the current position and returns the list of
possible remainders after consuming a match, in Python's backtracking
preference order (greedy quantifiers longest-first, alternation
left-to-right). -/

/-- Backtracking matcher: possible remainders in preference order. -/
def RxM := List Char → List (List Char)

/-- Empty pattern. -/
def mEps : RxM := fun l => [l]

/-- Literal character list. -/
def mLit (w : List Char) : RxM := fun l =>
  match startsWithL l w with
  | true => [l.drop w.length]
  | false => []

/-- Literal string. -/
def mStr (s : String) : RxM := mLit s.data

/-- Sequencing (Python concatenation, preference order preserved). -/
def mSeq (a b : RxM) : RxM := fun l => (a l).flatMap b

/-- Alternation `x|y`, left alternative preferred as in Python. -/
def mAlt (a b : RxM) : RxM := fun l => a l ++ b l

/-- Optional group `(?:x)?`, greedy: present preferred. -/
def mOpt (a : RxM) : RxM := fun l => a l ++ [l]

/-- `c+` for a character class: one or more, greedy (longest first). -/
def mPlus (p : Char → Bool) : RxM := fun l =>
  let n := (l.takeWhile p).length
  (List.range n).map (fun i => l.drop (n - i))

/-- `c*` for a character class: zero or more, greedy (longest first). -/
def mStar (p : Char → Bool) : RxM := fun l =>
  let n := (l.takeWhile p).length
  (List.range (n + 1)).map (fun i => l.drop (n - i))

/-- Sequence a list of matchers. -/
def mCat (ms : List RxM) : RxM := ms.foldr mSeq mEps

/-- `\s+` -/
def sp1 : RxM := mPlus isSpaceC
/-- `\s*` -/
def sp0 : RxM := mStar isSpaceC

/-- Does the pattern match starting exactly at the current position? -/
def mHere (m : RxM) (l : List Char) : Bool := !(m l).isEmpty

/-- Embeds `re.search(pattern, text) is not None`: a match starting at some
position of the text. -/
def mSearch (m : RxM) : List Char → Bool
  | [] => mHere m []
  | c :: t => mHere m (c :: t) || mSearch m t

/-! ### Capture patterns: regexes with a single `(\d{a,b})` / `(\d+)` group

Each numeric pattern of the calorie and weight-loss policies has the form
`pre (\d{dmin,dmax}) post` (with an optional `\b` immediately before the
digits).  `capAt` matches at one position, returning the captured number and
the total consumed length of the first backtracking success, in Python's
preference order; `capSearch` embeds `re.search`, `capFindAll` embeds
`re.findall` (non-overlapping, resuming after each match). -/

structure CapPat where
  pre : RxM
  /-- a `\b` sits immediately before the digit group (the `pre` of such a
  pattern is empty, so the boundary is a test on the character before the
  scan position). -/
  bound : Bool
  dmin : Nat
  /-- `none` embeds `\d+` (no upper bound). -/
  dmax : Option Nat
  post : RxM

/-- Digits to the number they denote (`int(match.group(1))`). -/
def natOfDigits (ds : List Char) : Nat :=
  ds.foldl (fun a c => a * 10 + (c.toNat - 48)) 0

/-- First success in preference order. -/
def firstSome {α : Type} (xs : List (Option α)) : Option α :=
  (xs.filterMap id).head?

/-- Match a capture pattern at the current position.  `prevWord` tells
whether the character just before the position is a word character (for the
`\b` test).  Returns `(captured value, consumed length)` of the first
backtracking success. -/
def capAt (pat : CapPat) (prevWord : Bool) (l : List Char) :
    Option (Nat × Nat) :=
  if pat.bound && prevWord then none
  else
    firstSome ((pat.pre l).map (fun r =>
      let run := (r.takeWhile isDigitC).length
      let hi := match pat.dmax with
        | some d => min d run
        | none => run
      let lens := (List.range (hi + 1 - pat.dmin)).map (fun i => hi - i)
      firstSome (lens.map (fun len =>
        match pat.post (r.drop len) with
        | [] => none
        | r2 :: _ =>
            some (natOfDigits (r.take len), l.length - r2.length)))))

/-- `re.search` for a capture pattern: leftmost match, captured value. -/
def capSearchAux (pat : CapPat) (prevWord : Bool) : List Char → Option Nat
  | [] => (capAt pat prevWord []).map (·.1)
  | c :: t =>
    match capAt pat prevWord (c :: t) with
    | some (v, _) => some v
    | none => capSearchAux pat (isWordC c) t

/-- `re.search` on the whole text. -/
def capSearch (pat : CapPat) (l : List Char) : Option Nat :=
  capSearchAux pat false l

/-- `re.findall`: all non-overlapping matches, scanning resumes after the
consumed length of each match (fuel argument for termination; the initial
fuel `l.length + 1` always suffices since every step consumes at least one
character). -/
def capFindAllAux (pat : CapPat) : Nat → Bool → List Char → List Nat
  | 0, _, _ => []
  | fuel + 1, prevWord, l =>
    match capAt pat prevWord l with
    | some (v, consumed) =>
        let pw2 := match (l.take consumed).getLast? with
          | some c => isWordC c
          | none => prevWord
        v :: capFindAllAux pat fuel pw2 (l.drop (max consumed 1))
    | none =>
        match l with
        | [] => []
        | c :: t => capFindAllAux pat fuel (isWordC c) t

/-- `re.findall` on the whole text. -/
def capFindAll (pat : CapPat) (l : List Char) : List Nat :=
  capFindAllAux pat (l.length + 1) false l

/-! ### Policy data model (`app/coach_ai/policies/base.py`) -/

/-- `PolicySeverity` enum. -/
inductive PolicySeverity where
  | info | warning | blocked | critical
deriving DecidableEq, Repr

/-- `PolicyAction` enum. -/
inductive PolicyAction where
  | allow | modify | block | flag
deriving DecidableEq, Repr

/-- `PolicyResult` dataclass. -/
structure PolicyResult where
  passed : Bool
  action : PolicyAction
  severity : Option PolicySeverity := none
  violation_type : Option String := none
  message : Option String := none
  modified_content : Option String := none
  disclaimer : Option String := none
deriving DecidableEq, Repr

/-- `PolicyResult(passed=True, action=PolicyAction.ALLOW)`. -/
def allowR : PolicyResult := { passed := true, action := .allow }

/-- `UserContext` dataclass (weights as `ℚ`). -/
structure UserContext where
  user_id : String
  sex : Option String := none
  age : Option Int := none
  current_weight_kg : Option ℚ := none
  goal_type : Option String := none
  target_calories : Option Int := none
  target_weight_kg : Option ℚ := none
deriving DecidableEq, Repr

/-- A safety policy: the `check_input`/`check_output` pure function pair. -/
structure BasePolicy where
  check_input : String → UserContext → PolicyResult
  check_output : String → UserContext → PolicyResult

/-! ### Eating-disorder policy (`eating_disorder_policy.py`) -/

/-- `ED_KEYWORDS`. -/
def edKeywords : List String :=
  ["purge", "purging", "binge", "binging", "bingeing", "laxative",
   "laxatives", "diet pills", "water fast", "juice cleanse",
   "body checking", "body check", "thinspo", "pro-ana", "pro-mia",
   "meanspo", "bonespo"]

/-- `how\s+(?:to|can\s+i)\s+not\s+eat` -/
def edPhrase1 : RxM :=
  mCat [mStr "how", sp1, mAlt (mStr "to") (mCat [mStr "can", sp1, mStr "i"]),
        sp1, mStr "not", sp1, mStr "eat"]

/-- `punish\s+(?:myself|me)\s+(?:for|with)\s+(?:eating|food)` -/
def edPhrase2 : RxM :=
  mCat [mStr "punish", sp1, mAlt (mStr "myself") (mStr "me"), sp1,
        mAlt (mStr "for") (mStr "with"), sp1,
        mAlt (mStr "eating") (mStr "food")]

/-- `(?:hate|disgusted)\s+(?:with|by)\s+(?:my\s+)?body` -/
def edPhrase3 : RxM :=
  mCat [mAlt (mStr "hate") (mStr "disgusted"), sp1,
        mAlt (mStr "with") (mStr "by"), sp1,
        mOpt (mCat [mStr "my", sp1]), mStr "body"]

/-- `never\s+eat\s+again` -/
def edPhrase4 : RxM := mCat [mStr "never", sp1, mStr "eat", sp1, mStr "again"]

/-- `(?:scared|afraid)\s+(?:of|to)\s+eat` -/
def edPhrase5 : RxM :=
  mCat [mAlt (mStr "scared") (mStr "afraid"), sp1,
        mAlt (mStr "of") (mStr "to"), sp1, mStr "eat"]

/-- `make\s+(?:myself|me)\s+(?:throw\s+up|vomit|sick)` -/
def edPhrase6 : RxM :=
  mCat [mStr "make", sp1, mAlt (mStr "myself") (mStr "me"), sp1,
        mAlt (mCat [mStr "throw", sp1, mStr "up"])
             (mAlt (mStr "vomit") (mStr "sick"))]

/-- `get\s+rid\s+of\s+(?:the\s+)?food` -/
def edPhrase7 : RxM :=
  mCat [mStr "get", sp1, mStr "rid", sp1, mStr "of", sp1,
        mOpt (mCat [mStr "the", sp1]), mStr "food"]

/-- `(?:starve|starving)\s+(?:myself|me)` -/
def edPhrase8 : RxM :=
  mCat [mAlt (mStr "starve") (mStr "starving"), sp1,
        mAlt (mStr "myself") (mStr "me")]

/-- `ED_PHRASES`. -/
def edPhrases : List RxM :=
  [edPhrase1, edPhrase2, edPhrase3, edPhrase4, edPhrase5, edPhrase6,
   edPhrase7, edPhrase8]

/-- The supportive message of `_create_concern_response` (the `_trigger`
argument is unused by the source). -/
def edConcernMessage : String :=
  "I notice you may be going through a difficult time with food and body image. Your wellbeing is what matters most, and I want to make sure you have access to support.\n\nIf you\x27re struggling with your relationship with food, please consider reaching out to:\n- **National Eating Disorders Association (NEDA):** 1-800-931-2237\n- **Crisis Text Line:** Text \x27NEDA\x27 to 741741\n- **Your healthcare provider** or a licensed therapist\n\nI\x27m here to support your health goals in a safe, sustainable way. Would you like to talk about some gentle approaches to nutrition?"

/-- `_create_concern_response`. -/
def edConcernResponse : PolicyResult :=
  { passed := false, action := .flag, severity := some .critical,
    violation_type := some "eating_disorder_signal",
    message := some edConcernMessage }

/-- `EatingDisorderPolicy.check_input`: the source loops over the keyword
list and then the phrase list, returning `_create_concern_response` at the
first hit; since the response does not depend on the trigger, each loop is
an any-test. -/
def edCheckInput (s : String) (_c : UserContext) : PolicyResult :=
  let low := pyLower s
  if edKeywords.any (fun k => containsSubL k.data low) then edConcernResponse
  else if edPhrases.any (fun m => mSearch m low) then edConcernResponse
  else allowR

/-- `skip\s+(?:all\s+)?meals` -/
def edDanger1 : RxM :=
  mCat [mStr "skip", sp1, mOpt (mCat [mStr "all", sp1]), mStr "meals"]
/-- `very\s+low\s+calorie` -/
def edDanger2 : RxM := mCat [mStr "very", sp1, mStr "low", sp1, mStr "calorie"]
/-- `extreme\s+(?:diet|restriction|fasting)` -/
def edDanger3 : RxM :=
  mCat [mStr "extreme", sp1,
        mAlt (mStr "diet") (mAlt (mStr "restriction") (mStr "fasting"))]
/-- `fast\s+for\s+(?:\d+\s+)?days` -/
def edDanger4 : RxM :=
  mCat [mStr "fast", sp1, mStr "for", sp1,
        mOpt (mCat [mPlus isDigitC, sp1]), mStr "days"]
/-- `don'?t\s+eat\s+(?:for|until)` (apostrophe written `\x27`) -/
def edDanger5 : RxM :=
  mCat [mStr "don", mOpt (mStr "\x27"), mStr "t", sp1, mStr "eat", sp1,
        mAlt (mStr "for") (mStr "until")]
/-- `restrict\s+(?:heavily|severely)` -/
def edDanger6 : RxM :=
  mCat [mStr "restrict", sp1, mAlt (mStr "heavily") (mStr "severely")]

/-- `dangerous_patterns` of `EatingDisorderPolicy.check_output`. -/
def edDangerous : List RxM :=
  [edDanger1, edDanger2, edDanger3, edDanger4, edDanger5, edDanger6]

/-- The block message of `EatingDisorderPolicy.check_output`. -/
def edBlockMessage : String :=
  "I can\x27t provide advice that could be harmful to your health."

/-- The block result of `EatingDisorderPolicy.check_output`. -/
def edBlockResult : PolicyResult :=
  { passed := false, action := .block, severity := some .critical,
    violation_type := some "ed_promotion", message := some edBlockMessage }

/-- `EatingDisorderPolicy.check_output` (uniform result over the pattern
loop, hence an any-test). -/
def edCheckOutput (s : String) (_c : UserContext) : PolicyResult :=
  let low := pyLower s
  if edDangerous.any (fun m => mSearch m low) then edBlockResult
  else allowR

/-- `EatingDisorderPolicy` as a policy value. -/
def eatingDisorderPolicy : BasePolicy := ⟨edCheckInput, edCheckOutput⟩

/-! ### Calorie policy (`calorie_policy.py`) -/

/-- `MIN_CALORIES_FEMALE` -/
def MIN_CALORIES_FEMALE : Nat := 1200
/-- `MIN_CALORIES_MALE` -/
def MIN_CALORIES_MALE : Nat := 1500

/-- `min_cal = MIN_CALORIES_FEMALE if context.sex == "female" else MIN_CALORIES_MALE` -/
def minCalFor (c : UserContext) : Nat :=
  if c.sex = some "female" then MIN_CALORIES_FEMALE else MIN_CALORIES_MALE

/-- `(?:cal|calories|kcal)` (input-side order). -/
def calUnitIn : RxM := mAlt (mStr "cal") (mAlt (mStr "calories") (mStr "kcal"))

/-- `(?:cal|kcal|calories)` (output-side order). -/
def calUnitOut : RxM := mAlt (mStr "cal") (mAlt (mStr "kcal") (mStr "calories"))

/-- `\b(\d{2,3})\s*(?:cal|calories|kcal)` -/
def calIn1 : CapPat :=
  { pre := mEps, bound := true, dmin := 2, dmax := some 3,
    post := mCat [sp0, calUnitIn] }
/-- `under\s*(\d{3,4})\s*(?:cal|calories|kcal)` -/
def calIn2 : CapPat :=
  { pre := mCat [mStr "under", sp0], bound := false, dmin := 3, dmax := some 4,
    post := mCat [sp0, calUnitIn] }
/-- `only\s*(\d{3,4})\s*(?:cal|calories|kcal)` -/
def calIn3 : CapPat :=
  { pre := mCat [mStr "only", sp0], bound := false, dmin := 3, dmax := some 4,
    post := mCat [sp0, calUnitIn] }
/-- `less\s*than\s*(\d{3,4})\s*(?:cal|calories|kcal)` -/
def calIn4 : CapPat :=
  { pre := mCat [mStr "less", sp0, mStr "than", sp0], bound := false,
    dmin := 3, dmax := some 4, post := mCat [sp0, calUnitIn] }

/-- The message of the calorie input violation (an f-string naming the
threshold). -/
def calInMessage (m : Nat) : String :=
  "I understand you\x27re motivated, but calorie levels below " ++ Nat.repr m
    ++ " aren\x27t recommended for health and safety reasons. Let me help you find a sustainable approach that will get you results safely."

/-- The `PolicyResult` returned by `CaloriePolicy.check_input` on a
violation. -/
def calInModify (m : Nat) : PolicyResult :=
  { passed := false, action := .modify, severity := some .warning,
    violation_type := some "calorie_minimum_request",
    message := some (calInMessage m) }

/-- A `for`-loop with early return: the first element on which the body
returns a result. -/
def firstHit {α β : Type} (f : α → Option β) : List α → Option β
  | [] => none
  | x :: xs =>
    match f x with
    | some r => some r
    | none => firstHit f xs

/-- `patterns` of `CaloriePolicy.check_input`, in source order. -/
def calInPatterns : List CapPat := [calIn1, calIn2, calIn3, calIn4]

/-- One round of the pattern loop of `CaloriePolicy.check_input`:
`re.search` the pattern; on a captured figure below `min_cal`, return the
modify result (the `int(...)` conversion of a digit capture never fails,
so the `except ValueError` arm is dead). -/
def calInStep (low : List Char) (m : Nat) (p : CapPat) :
    Option PolicyResult :=
  match capSearch p low with
  | some v => if v < m then some (calInModify m) else none
  | none => none

/-- `CaloriePolicy.check_input`: loop over the four patterns with early
return, else allow. -/
def calCheckInput (s : String) (c : UserContext) : PolicyResult :=
  (firstHit (calInStep (pyLower s) (minCalFor c)) calInPatterns).getD allowR

/-- `(\d{3,4})\s*(?:cal|kcal|calories)` -/
def calOut1 : CapPat :=
  { pre := mEps, bound := false, dmin := 3, dmax := some 4,
    post := mCat [sp0, calUnitOut] }
/-- `eat\s*(?:around|about|approximately)?\s*(\d{3,4})` -/
def calOut2 : CapPat :=
  { pre := mCat [mStr "eat", sp0,
                 mOpt (mAlt (mStr "around")
                        (mAlt (mStr "about") (mStr "approximately"))), sp0],
    bound := false, dmin := 3, dmax := some 4, post := mEps }
/-- `target\s*(?:of)?\s*(\d{3,4})` -/
def calOut3 : CapPat :=
  { pre := mCat [mStr "target", sp0, mOpt (mStr "of"), sp0],
    bound := false, dmin := 3, dmax := some 4, post := mEps }
/-- `aim\s*for\s*(\d{3,4})` -/
def calOut4 : CapPat :=
  { pre := mCat [mStr "aim", sp0, mStr "for", sp0],
    bound := false, dmin := 3, dmax := some 4, post := mEps }

/-- The disclaimer of the calorie output violation (names the threshold). -/
def calOutDisclaimer (m : Nat) : String :=
  "\n\n**Important:** Calorie intake below " ++ Nat.repr m
    ++ " calories per day is generally not recommended without medical supervision. Please consult a healthcare provider before making significant changes to your diet."

/-- The `PolicyResult` returned by `CaloriePolicy.check_output` on a
violation. -/
def calOutModify (m : Nat) : PolicyResult :=
  { passed := false, action := .modify, severity := some .warning,
    violation_type := some "calorie_minimum",
    disclaimer := some (calOutDisclaimer m) }

/-- `CaloriePolicy.check_output`: `re.findall` every pattern in order and
return the modify result at the first captured figure below `min_cal`
(uniform result, hence an any-test per pattern). -/
def calCheckOutput (s : String) (c : UserContext) : PolicyResult :=
  let low := pyLower s
  let m := minCalFor c
  let fire := fun (p : CapPat) => (capFindAll p low).any (fun v => v < m)
  if fire calOut1 then calOutModify m
  else if fire calOut2 then calOutModify m
  else if fire calOut3 then calOutModify m
  else if fire calOut4 then calOutModify m
  else allowR

/-- `CaloriePolicy` as a policy value. -/
def caloriePolicy : BasePolicy := ⟨calCheckInput, calCheckOutput⟩

/-! ### Weight-loss policy (`weight_loss_policy.py`) -/

/-- `MAX_WEIGHT_LOSS_RATE` (1% of body weight per week). -/
def MAX_WEIGHT_LOSS_RATE : ℚ := 1 / 100

/-- The pounds→kg factor `0.453592`. -/
def lbPerKg : ℚ := 453592 / 1000000

/-- `(?:lbs?|pounds?|kg|kilos?)` -/
def wlUnit : RxM :=
  mAlt (mCat [mStr "lb", mOpt (mStr "s")])
    (mAlt (mCat [mStr "pound", mOpt (mStr "s")])
      (mAlt (mStr "kg") (mCat [mStr "kilo", mOpt (mStr "s")])))

/-- `lose\s+(\d+)\s*(?:lbs?|pounds?|kg|kilos?)\s*(?:in|per)\s*(?:a\s+)?week` -/
def wlIn1 : CapPat :=
  { pre := mCat [mStr "lose", sp1], bound := false, dmin := 1, dmax := none,
    post := mCat [sp0, wlUnit, sp0, mAlt (mStr "in") (mStr "per"), sp0,
                  mOpt (mCat [mStr "a", sp1]), mStr "week"] }
/-- `drop\s+(\d+)\s*(?:lbs?|pounds?|kg|kilos?)\s*(?:fast|quick|rapid)` -/
def wlIn2 : CapPat :=
  { pre := mCat [mStr "drop", sp1], bound := false, dmin := 1, dmax := none,
    post := mCat [sp0, wlUnit, sp0,
                  mAlt (mStr "fast") (mAlt (mStr "quick") (mStr "rapid"))] }
/-- `(\d+)\s*(?:lbs?|pounds?|kg|kilos?)\s*(?:a|per)\s*week` -/
def wlIn3 : CapPat :=
  { pre := mEps, bound := false, dmin := 1, dmax := none,
    post := mCat [sp0, wlUnit, sp0, mAlt (mStr "a") (mStr "per"), sp0,
                  mStr "week"] }

/-- `f"{q:.1f}"` on the nonnegative rationals that reach it (round to one
decimal; Python formats the underlying binary float with round-half-even,
which agrees on every value the theorems evaluate). -/
def fmt1 (q : ℚ) : String :=
  let n : ℤ := round (q * 10)
  Int.repr (n / 10) ++ "." ++ Int.repr (n % 10)

/-- The weight-scaled message of the weight-loss input violation. -/
def wlMsg1 (safe : ℚ) : String :=
  "I understand you want fast results! For sustainable, healthy weight loss, experts recommend no more than "
    ++ fmt1 safe ++ " kg (" ++ fmt1 (safe * (22 / 10))
    ++ " lbs) per week, which is about 1% of your body weight. Faster loss often leads to muscle loss and rebound weight gain. Let me help you with a plan that gets lasting results!"

/-- The generic message of the weight-loss input violation. -/
def wlMsg2 : String :=
  "Losing more than 0.5-1 kg (1-2 lbs) per week can lead to muscle loss, nutrient deficiencies, and rebound weight gain. Let me help you create a sustainable plan that gets you lasting results!"

/-- Weight-scaled violation result of `WeightLossPolicy.check_input`. -/
def wlModifyScaled (safe : ℚ) : PolicyResult :=
  { passed := false, action := .modify, severity := some .warning,
    violation_type := some "rapid_weight_loss_request",
    message := some (wlMsg1 safe) }

/-- Generic violation result of `WeightLossPolicy.check_input`. -/
def wlModifyGeneric : PolicyResult :=
  { passed := false, action := .modify, severity := some .warning,
    violation_type := some "rapid_weight_loss_request",
    message := some wlMsg2 }

/-- One round of the pattern loop of `WeightLossPolicy.check_input`.  The
source converts the captured amount with `amount * 0.453592` whenever the
*pattern string* contains `"lb"`; every one of the three pattern strings
does (they all spell `lbs?`), so the conversion applies unconditionally,
for kg figures too.  `if context.current_weight_kg:` is Python truthiness
(`None` and `0.0` both take the general branch). -/
def wlInStep (low : List Char) (cw : Option ℚ) (p : CapPat) :
    Option PolicyResult :=
  match capSearch p low with
  | some v =>
      let amountKg : ℚ := (v : ℚ) * lbPerKg
      match cw with
      | some w =>
          if w ≠ 0 then
            let safe := w * MAX_WEIGHT_LOSS_RATE
            if amountKg > safe * (3 / 2) then some (wlModifyScaled safe)
            else none
          else if amountKg > 1 then some wlModifyGeneric else none
      | none => if amountKg > 1 then some wlModifyGeneric else none
  | none => none

/-- `patterns` of `WeightLossPolicy.check_input`, in source order. -/
def wlInPatterns : List CapPat := [wlIn1, wlIn2, wlIn3]

/-- The pattern loop of `WeightLossPolicy.check_input` with early return,
else allow. -/
def wlCheckInput (s : String) (c : UserContext) : PolicyResult :=
  (firstHit (wlInStep (pyLower s) c.current_weight_kg) wlInPatterns).getD
    allowR

/-- `lose\s+(\d+)\s*(?:lbs?|pounds?|kg|kilos?)\s*(?:per|a)\s*week` -/
def wlOut1 : CapPat :=
  { pre := mCat [mStr "lose", sp1], bound := false, dmin := 1, dmax := none,
    post := mCat [sp0, wlUnit, sp0, mAlt (mStr "per") (mStr "a"), sp0,
                  mStr "week"] }
/-- `expect\s+(?:to\s+)?(?:lose\s+)?(\d+)\s*(?:lbs?|pounds?|kg|kilos?)` -/
def wlOut2 : CapPat :=
  { pre := mCat [mStr "expect", sp1, mOpt (mCat [mStr "to", sp1]),
                 mOpt (mCat [mStr "lose", sp1])],
    bound := false, dmin := 1, dmax := none, post := mCat [sp0, wlUnit] }
/-- `(\d+)\s*(?:lbs?|pounds?|kg|kilos?)\s*(?:weekly|per\s+week)` -/
def wlOut3 : CapPat :=
  { pre := mEps, bound := false, dmin := 1, dmax := none,
    post := mCat [sp0, wlUnit, sp0,
                  mAlt (mStr "weekly") (mCat [mStr "per", sp1, mStr "week"])] }

/-- The disclaimer of the weight-loss output violation. -/
def wlOutDisclaimer : String :=
  "\n\n**Note:** For safe, sustainable weight loss, aim for 0.5-1 kg (1-2 lbs) per week. Faster weight loss may lead to muscle loss and is harder to maintain long-term."

/-- Violation result of `WeightLossPolicy.check_output`. -/
def wlOutModify : PolicyResult :=
  { passed := false, action := .modify, severity := some .warning,
    violation_type := some "rapid_weight_loss_recommendation",
    disclaimer := some wlOutDisclaimer }

/-- `WeightLossPolicy.check_output` (same unconditional lb conversion;
uniform result, hence an any-test over `re.findall` per pattern). -/
def wlCheckOutput (s : String) (_c : UserContext) : PolicyResult :=
  let low := pyLower s
  let fire := fun (p : CapPat) =>
    (capFindAll p low).any (fun v => (v : ℚ) * lbPerKg > 1)
  if fire wlOut1 then wlOutModify
  else if fire wlOut2 then wlOutModify
  else if fire wlOut3 then wlOutModify
  else allowR

/-- `WeightLossPolicy` as a policy value. -/
def weightLossPolicy : BasePolicy := ⟨wlCheckInput, wlCheckOutput⟩

/-! ### Medical-claims policy (`medical_claims_policy.py`)

(The module-level `MEDICAL_KEYWORDS` list is never read by the source's
methods and is not embedded.) -/

/-- `do\s+i\s+have\s+(?:\w+\s+)?(?:diabetes|anorexia|bulimia|thyroid|hormone)` -/
def medPat1 : RxM :=
  mCat [mStr "do", sp1, mStr "i", sp1, mStr "have", sp1,
        mOpt (mCat [mPlus isWordC, sp1]),
        mAlt (mStr "diabetes")
          (mAlt (mStr "anorexia")
            (mAlt (mStr "bulimia") (mAlt (mStr "thyroid") (mStr "hormone"))))]
/-- `should\s+i\s+(?:take|stop|change)\s+(?:my\s+)?(?:medication|medicine|prescription)` -/
def medPat2 : RxM :=
  mCat [mStr "should", sp1, mStr "i", sp1,
        mAlt (mStr "take") (mAlt (mStr "stop") (mStr "change")), sp1,
        mOpt (mCat [mStr "my", sp1]),
        mAlt (mStr "medication") (mAlt (mStr "medicine") (mStr "prescription"))]
/-- `(?:what|which)\s+(?:medication|medicine|drug)\s+should` -/
def medPat3 : RxM :=
  mCat [mAlt (mStr "what") (mStr "which"), sp1,
        mAlt (mStr "medication") (mAlt (mStr "medicine") (mStr "drug")), sp1,
        mStr "should"]
/-- `is\s+(?:this|it)\s+(?:\w+\s+)?(?:safe|dangerous)\s+(?:to|for)` -/
def medPat4 : RxM :=
  mCat [mStr "is", sp1, mAlt (mStr "this") (mStr "it"), sp1,
        mOpt (mCat [mPlus isWordC, sp1]),
        mAlt (mStr "safe") (mStr "dangerous"), sp1,
        mAlt (mStr "to") (mStr "for")]

/-- `MEDICAL_PATTERNS`. -/
def medPatterns : List RxM := [medPat1, medPat2, medPat3, medPat4]

/-- `MEDICAL_CONDITIONS`. -/
def medConditions : List String :=
  ["diabetes", "thyroid", "hormone", "pcos", "insulin resistance",
   "heart disease", "hypertension", "high blood pressure", "kidney disease",
   "liver disease", "cancer", "pregnancy", "pregnant", "breastfeeding",
   "nursing"]

/-- The question words of the condition test in `check_input`. -/
def medQWords : List String :=
  ["what should", "how should", "can i", "should i"]

/-- The message of `_create_medical_referral_response`. -/
def medReferralMessage : String :=
  "I\x27m a fitness coach, not a medical professional. For questions about medical conditions, medications, or health diagnoses, please consult with:\n\n- Your primary care physician\n- A registered dietitian (RD)\n- An endocrinologist (for hormone-related questions)\n- A mental health professional (for eating-related concerns)\n\nI\x27m happy to help with general fitness and nutrition guidance once you\x27ve gotten medical clearance!"

/-- `_create_medical_referral_response`. -/
def medReferral : PolicyResult :=
  { passed := false, action := .flag, severity := some .warning,
    violation_type := some "medical_request",
    message := some medReferralMessage }

/-- `_get_medical_disclaimer`. -/
def medDisclaimer : String :=
  "\n\n**Disclaimer:** This is general fitness information and not medical advice. Please consult with a healthcare provider for personalized medical guidance, especially if you have any health conditions."

/-- `MedicalClaimsPolicy.check_input`: medical patterns first (referral,
flag), then the condition loop, which returns `passed=True/ALLOW` with the
medical disclaimer when a condition co-occurs with a question mark or a
question phrase (uniform results, hence any-tests). -/
def medCheckInput (s : String) (_c : UserContext) : PolicyResult :=
  let low := pyLower s
  if medPatterns.any (fun m => mSearch m low) then medReferral
  else if (medConditions.any (fun cond => containsSubL cond.data low))
      && (containsSubL ['?'] s.data
          || medQWords.any (fun q => containsSubL q.data low)) then
    { passed := true, action := .allow, disclaimer := some medDisclaimer }
  else allowR

/-- `you\s+(?:have|may\s+have|might\s+have|probably\s+have)\s+(?:\w+\s+)?(?:diabetes|disorder|disease|condition)` -/
def medDiag1 : RxM :=
  mCat [mStr "you", sp1,
        mAlt (mStr "have")
          (mAlt (mCat [mStr "may", sp1, mStr "have"])
            (mAlt (mCat [mStr "might", sp1, mStr "have"])
              (mCat [mStr "probably", sp1, mStr "have"]))), sp1,
        mOpt (mCat [mPlus isWordC, sp1]),
        mAlt (mStr "diabetes")
          (mAlt (mStr "disorder") (mAlt (mStr "disease") (mStr "condition")))]
/-- `this\s+(?:is|sounds\s+like|could\s+be)\s+(?:\w+\s+)?(?:diabetes|disorder|disease|condition)` -/
def medDiag2 : RxM :=
  mCat [mStr "this", sp1,
        mAlt (mStr "is")
          (mAlt (mCat [mStr "sounds", sp1, mStr "like"])
            (mCat [mStr "could", sp1, mStr "be"])), sp1,
        mOpt (mCat [mPlus isWordC, sp1]),
        mAlt (mStr "diabetes")
          (mAlt (mStr "disorder") (mAlt (mStr "disease") (mStr "condition")))]
/-- `i\s+(?:diagnose|recommend)\s+(?:you|that\s+you)` -/
def medDiag3 : RxM :=
  mCat [mStr "i", sp1, mAlt (mStr "diagnose") (mStr "recommend"), sp1,
        mAlt (mStr "you") (mCat [mStr "that", sp1, mStr "you"])]

/-- `diagnostic_patterns` of `MedicalClaimsPolicy.check_output`. -/
def medDiagPatterns : List RxM := [medDiag1, medDiag2, medDiag3]

/-- The block message of `MedicalClaimsPolicy.check_output`. -/
def medBlockMessage : String :=
  "I\x27m not able to provide medical diagnoses or advice. For health concerns, please consult with a healthcare provider who can properly evaluate your situation."

/-- The block result of `MedicalClaimsPolicy.check_output`. -/
def medBlockResult : PolicyResult :=
  { passed := false, action := .block, severity := some .blocked,
    violation_type := some "medical_diagnosis",
    message := some medBlockMessage }

/-- `MedicalClaimsPolicy.check_output`: diagnostic language blocks; a bare
condition mention yields `passed=True/MODIFY` with the medical disclaimer. -/
def medCheckOutput (s : String) (_c : UserContext) : PolicyResult :=
  let low := pyLower s
  if medDiagPatterns.any (fun m => mSearch m low) then medBlockResult
  else if medConditions.any (fun cond => containsSubL cond.data low) then
    { passed := true, action := .modify, disclaimer := some medDisclaimer }
  else allowR

/-- `MedicalClaimsPolicy` as a policy value. -/
def medicalClaimsPolicy : BasePolicy := ⟨medCheckInput, medCheckOutput⟩

/-! ### Safety policy engine (`policies/engine.py`)

The engine's `_log_violation` is best-effort logging (its own failures are
caught); it never affects the returned `PolicyResult` and is not embedded.
The engine is the generic iteration of `SafetyPolicyEngine.check_input` /
`check_output` over `self._policies`; `SafetyPolicyEngine.__init__` fixes
that list to the four policies in order. -/

/-- The ordered policy list built by `SafetyPolicyEngine.__init__`. -/
def defaultPolicies : List BasePolicy :=
  [eatingDisorderPolicy, caloriePolicy, weightLossPolicy, medicalClaimsPolicy]

/-- The source's immediate-return test of `check_input`:
`result.action in (BLOCK, FLAG) and result.message` on a failed result
(Python truthiness on the message). -/
def scGuard (r : PolicyResult) : Bool :=
  (!r.passed) && (r.action == .block || r.action == .flag)
    && truthyS r.message

/-- `SafetyPolicyEngine.check_input` over an explicit policy list. -/
def checkInputList : List BasePolicy → String → UserContext → PolicyResult
  | [], _, _ => allowR
  | p :: ps, s, c =>
    let r := p.check_input s c
    if scGuard r then r else checkInputList ps s c

/-- `SafetyPolicyEngine.check_input` with the engine's fixed policies. -/
def engineCheckInput (s : String) (c : UserContext) : PolicyResult :=
  checkInputList defaultPolicies s c

/-- `"\n".join(unique_disclaimers)`. -/
def joinNL : List String → String := String.intercalate "\n"

/-- `list(dict.fromkeys(disclaimers))` with an explicit seen-set
accumulator: keep each element's first occurrence, in encounter order. -/
def dedupFirstAux (seen : List String) : List String → List String
  | [] => []
  | x :: xs =>
    if x ∈ seen then dedupFirstAux seen xs
    else x :: dedupFirstAux (x :: seen) xs

/-- `list(dict.fromkeys(disclaimers))`: de-duplication keeping the first
occurrence, in encounter order. -/
def dedupFirst (l : List String) : List String := dedupFirstAux [] l

/-- The tail of `check_output`: disclaimer injection and the final
`PolicyResult` (with `modified_content` set only when the text changed). -/
def mkOutFinal (orig modText : String) (ds : List String) : PolicyResult :=
  let final := if ds.isEmpty then modText
    else modText ++ joinNL (dedupFirst ds)
  { passed := true, action := .allow,
    modified_content := if final ≠ orig then some final else none }

/-- The immediate-return test of `check_output`:
`not result.passed and result.action == PolicyAction.BLOCK`. -/
def outBlockGuard (r : PolicyResult) : Bool :=
  (!r.passed) && r.action == .block

/-- The working-text update of one `check_output` round: a failed modify
with truthy `modified_content` replaces the working text. -/
def nextMod (modText : String) (r : PolicyResult) : String :=
  if (!r.passed) && r.action == .modify && truthyS r.modified_content
  then r.modified_content.getD modText else modText

/-- The disclaimer-collection step of one `check_output` round. -/
def discStep (r : PolicyResult) : List String :=
  if truthyS r.disclaimer then [r.disclaimer.getD ""] else []

/-- The loop of `SafetyPolicyEngine.check_output`: each policy sees the
progressively modified text; block returns immediately; a failed modify
with truthy `modified_content` replaces the working text; truthy
disclaimers are collected in encounter order. -/
def checkOutputAux :
    List BasePolicy → UserContext → String → String → List String →
      PolicyResult
  | [], _, orig, modText, ds => mkOutFinal orig modText ds
  | p :: ps, c, orig, modText, ds =>
    let r := p.check_output modText c
    if outBlockGuard r then r
    else checkOutputAux ps c orig (nextMod modText r) (ds ++ discStep r)

/-- `SafetyPolicyEngine.check_output` over an explicit policy list. -/
def checkOutputList (ps : List BasePolicy) (s : String) (c : UserContext) :
    PolicyResult :=
  checkOutputAux ps c s s []

/-- `SafetyPolicyEngine.check_output` with the engine's fixed policies. -/
def engineCheckOutput (s : String) (c : UserContext) : PolicyResult :=
  checkOutputList defaultPolicies s c

/-- Whether some round of the `check_output` iteration (on the progressive
texts) returns a block result. -/
def outBlockedAux : List BasePolicy → UserContext → String → Bool
  | [], _, _ => false
  | p :: ps, c, modText =>
    let r := p.check_output modText c
    if outBlockGuard r then true else outBlockedAux ps c (nextMod modText r)

/-- The working text at the end of the `check_output` iteration, before
disclaimer injection. -/
def finalTextAux : List BasePolicy → UserContext → String → String
  | [], _, modText => modText
  | p :: ps, c, modText =>
    finalTextAux ps c (nextMod modText (p.check_output modText c))

/-- The disclaimers emitted along the `check_output` iteration, in
encounter order. -/
def collectDisc : List BasePolicy → UserContext → String → List String
  | [], _, _ => []
  | p :: ps, c, modText =>
    let r := p.check_output modText c
    discStep r ++ collectDisc ps c (nextMod modText r)

/-- The short-circuit condition exactly as the claims state it: a failed
result with action block or flag and a *non-null* message (the source
tests Python truthiness instead; the two agree on every result the four
policies can produce — proved below). -/
def claimSC (r : PolicyResult) : Prop :=
  r.passed = false ∧ (r.action = .block ∨ r.action = .flag)
    ∧ r.message ≠ none

instance (r : PolicyResult) : Decidable (claimSC r) := by
  unfold claimSC; infer_instance

/-- Reference definition following the claim's words: the first result in
policy order satisfying the claim's short-circuit condition. -/
def firstClaimSC : List PolicyResult → Option PolicyResult
  | [] => none
  | r :: rs => if claimSC r then some r else firstClaimSC rs

/-! ### JSON-like payloads

The registry serializes tool arguments and cached payloads with
`json.dumps`/`json.loads`.  Payloads are embedded by the flat value
universe `PyVal`; Python `None` and JSON `null` are the same value
(`PyVal.null`), exactly as in CPython.  String escaping inside `dumps` is
elided (no claim examined here feeds strings needing escapes). -/

/-- Flat JSON-value universe for tool arguments and payloads. -/
inductive PyVal where
  | null
  | bool (b : Bool)
  | int (n : ℤ)
  | str (s : String)
deriving DecidableEq, Repr

/-- `json.dumps` of one value. -/
def dumpsVal : PyVal → String
  | .null => "null"
  | .bool true => "true"
  | .bool false => "false"
  | .int n => Int.repr n
  | .str s => "\"" ++ s ++ "\""

/-- The key-sorted item list of a keyword-argument dict
(`sorted(d.items())` as performed by `json.dumps(..., sort_keys=True)`;
keyword argument keys are unique). -/
def canonicalItems (args : List (String × PyVal)) : List (String × PyVal) :=
  (List.insertionSort (· ≤ ·) (args.map Prod.fst)).map
    (fun k => (k, (args.lookup k).getD PyVal.null))

/-- `json.dumps(kwargs, sort_keys=True, default=str)` on an argument
dict. -/
def dumpsSorted (args : List (String × PyVal)) : String :=
  "\x7b" ++ String.intercalate ", "
      ((canonicalItems args).map
        (fun kv => dumpsVal (.str kv.1) ++ ": " ++ dumpsVal kv.2))
    ++ "\x7d"

/-- Models `hashlib.sha256(x.encode()).hexdigest()[:64]`: a deterministic,
collision-free stand-in (the identity), which preserves exactly the
properties the claims state about the key — determinism and dependence on
nothing but the hashed string. -/
def stableHash (s : String) : String := s

/-! ### Tool registry (`tools/base.py`, `tools/registry.py`) -/

/-- `ToolResult` dataclass. -/
structure ToolResult where
  success : Bool
  data : PyVal
  error : Option String := none
  cached : Bool := false
deriving DecidableEq, Repr

/-- `BaseTool`: the attributes consulted by the registry plus the tool
body.  The body `execute` returns `Except.error e` to embed a raised
exception whose `str(...)` is `e`. -/
structure BaseTool where
  name : String
  category : String
  cacheable : Bool := true
  cache_ttl_seconds : Nat := 300
  execute : String → List (String × PyVal) → Except String ToolResult

/-- `BaseTool.get_cache_key`:
`sha256(f"{self.name}:{user_id}:{params_str}")` with
`params_str = json.dumps(kwargs, sort_keys=True, default=str)`. -/
def BaseTool.get_cache_key (t : BaseTool) (user_id : String)
    (args : List (String × PyVal)) : String :=
  stableHash (t.name ++ ":" ++ user_id ++ ":" ++ dumpsSorted args)

/-- `ToolRegistry` state: the registration map, whether a Redis cache
backend is configured, and the in-memory consent sets. -/
structure ToolRegistry where
  tools : List (String × BaseTool)
  hasRedis : Bool
  consents : List (String × List String)

/-- `ToolRegistry.get_tool`. -/
def ToolRegistry.get_tool (reg : ToolRegistry) (name : String) :
    Option BaseTool :=
  reg.tools.lookup name

/-- `ToolRegistry._has_consent`. -/
def ToolRegistry.has_consent (reg : ToolRegistry) (uid tool : String) :
    Bool :=
  match reg.consents.lookup uid with
  | some l => l.contains tool
  | none => false

/-- Mutable world surrounding one registry: the Redis cache content (key ↦
expiry instant and stored payload) and an instrumentation counter of
tool-body executions (observing the "body runs at most once" claims). -/
structure CacheState where
  entries : List (String × (Nat × PyVal))
  bodyRuns : Nat
deriving DecidableEq, Repr

/-- `ToolRegistry._get_cached` composed with the caller's read:
`redis.get` yields the serialized payload while the key is unexpired;
`json.loads` of a stored `null` is Python `None`, which the caller's
`if cached is not None:` treats exactly like a miss — hence `none` both
for an absent/expired key and for a stored `null`. -/
def getCached (st : CacheState) (now : Nat) (key : String) : Option PyVal :=
  match st.entries.lookup key with
  | none => none
  | some (exp, v) =>
      if now < exp then (match v with | .null => none | _ => some v)
      else none

/-- `ToolRegistry._set_cached` (`redis.setex key ttl payload`). -/
def setCached (st : CacheState) (now : Nat) (key : String) (ttl : Nat)
    (v : PyVal) : CacheState :=
  { st with entries :=
      (key, (now + ttl, v)) :: st.entries.filter (fun e => e.1 ≠ key) }

/-- `ToolRegistry.execute_tool` at instant `now`.  Total: unknown tools,
missing consent and raising bodies all produce failure `ToolResult`s. -/
def ToolRegistry.execute_tool (reg : ToolRegistry) (now : Nat)
    (tool_name user_id : String) (args : List (String × PyVal))
    (st : CacheState) : ToolResult × CacheState :=
  match reg.get_tool tool_name with
  | none =>
      ({ success := false, data := .null,
         error := some ("Unknown tool: " ++ tool_name) }, st)
  | some tool =>
      if tool.category == "external" && !reg.has_consent user_id tool_name
      then
        ({ success := false, data := .null,
           error := some "User consent required for external tool" }, st)
      else
        let hit : Option PyVal :=
          if tool.cacheable && reg.hasRedis then
            getCached st now (tool.get_cache_key user_id args)
          else none
        match hit with
        | some v =>
            ({ success := true, data := v, error := none, cached := true },
             st)
        | none =>
            let st1 := { st with bodyRuns := st.bodyRuns + 1 }
            match tool.execute user_id args with
            | .error e =>
                ({ success := false, data := .null, error := some e }, st1)
            | .ok result =>
                let st2 :=
                  if result.success && tool.cacheable && reg.hasRedis then
                    setCached st1 now (tool.get_cache_key user_id args)
                      tool.cache_ttl_seconds result.data
                  else st1
                (result, st2)

/-! ### Coach context (`context_builder.py`)

`CoachContext` nested snapshots are dicts in the source; they are embedded
as structures holding exactly the keys `get_context_summary` and
`to_policy_context` read, each field optional (a `None` value).  Numeric
rendering inside the summary uses `toString` as a stand-in for Python's
float formatting — no theorem inspects the rendered digits. -/

/-- The profile snapshot dict. -/
structure ProfileSnap where
  display_name : Option String := none
  height_cm : Option ℚ := none
  sex : Option String := none
  birth_year : Option Int := none
  activity_level : Option String := none
deriving DecidableEq, Repr

/-- The goal snapshot dict. -/
structure GoalSnap where
  goal_type : Option String := none
  target_weight_kg : Option ℚ := none
  pace_preference : Option String := none
deriving DecidableEq, Repr

/-- The weight-trend summary dict. -/
structure TrendSnap where
  current_weight_kg : Option ℚ := none
  weekly_rate_of_change_kg : Option ℚ := none
deriving DecidableEq, Repr

/-- The adherence metrics dict. -/
structure AdherenceSnap where
  checkin_completion_rate : Option ℚ := none
  current_streak : Option Int := none
deriving DecidableEq, Repr

/-- `CoachContext` (the nested snapshots consulted by the summary). -/
structure CoachContext where
  user_id : String
  user_profile : Option ProfileSnap := none
  user_goal : Option GoalSnap := none
  weight_trend : Option TrendSnap := none
  adherence_metrics : Option AdherenceSnap := none
deriving DecidableEq, Repr

/-- Python truthiness of an optional number (`None` and `0` falsy). -/
def truthyQ : Option ℚ → Bool
  | none => false
  | some x => x ≠ 0

/-- Python truthiness of an optional integer. -/
def truthyI : Option Int → Bool
  | none => false
  | some x => x ≠ 0

/-- Numeric rendering stand-in (`f"{x}"`). -/
def qStr (q : ℚ) : String := toString q

/-- `f"{x*100:.0f}"`. -/
def fmt0 (q : ℚ) : String := Int.repr (round q)

/-- `CoachContext.get_context_summary`: line-by-line from the source;
every guard is the source's truthiness test; `"\n".join(parts)`. -/
def CoachContext.get_context_summary (ctx : CoachContext) : String :=
  let profileParts := match ctx.user_profile with
    | some p =>
        ["User Profile: " ++ (p.display_name.getD "User")]
          ++ (if truthyQ p.height_cm then
                ["  Height: " ++ qStr (p.height_cm.getD 0) ++ " cm"] else [])
          ++ (if truthyS p.sex then
                ["  Sex: " ++ (p.sex.getD "")] else [])
          ++ (if truthyS p.activity_level then
                ["  Activity Level: " ++ (p.activity_level.getD "")] else [])
    | none => []
  let goalParts := match ctx.user_goal with
    | some g =>
        ["Goal: " ++ (g.goal_type.getD "Not set")]
          ++ (if truthyQ g.target_weight_kg then
                ["  Target Weight: " ++ qStr (g.target_weight_kg.getD 0)
                  ++ " kg"] else [])
          ++ (if truthyS g.pace_preference then
                ["  Pace: " ++ (g.pace_preference.getD "")] else [])
    | none => []
  let trendParts := match ctx.weight_trend with
    | some t =>
        ["Weight Trend:"]
          ++ (if truthyQ t.current_weight_kg then
                ["  Current: " ++ qStr (t.current_weight_kg.getD 0)
                  ++ " kg"] else [])
          ++ (if truthyQ t.weekly_rate_of_change_kg then
                let rate := t.weekly_rate_of_change_kg.getD 0
                let direction := if rate < 0 then "losing" else "gaining"
                ["  Rate: " ++ direction ++ " " ++ qStr |rate| ++ " kg/week"]
              else [])
    | none => []
  let adherenceParts := match ctx.adherence_metrics with
    | some m =>
        ["Adherence:"]
          ++ (if truthyQ m.checkin_completion_rate then
                ["  Check-in rate: "
                  ++ fmt0 ((m.checkin_completion_rate.getD 0) * 100) ++ "%"]
              else [])
          ++ (if truthyI m.current_streak then
                ["  Current streak: "
                  ++ Int.repr (m.current_streak.getD 0) ++ " days"] else [])
    | none => []
  String.intercalate "\n"
    (profileParts ++ goalParts ++ trendParts ++ adherenceParts)

/-- The string-returning public methods defined on the `CoachContext`
class body in the source.  Attribute lookup on a `CoachContext` instance
resolves against exactly this table; `get_compact_summary` has no entry —
the class never defines it. -/
def coachContextStringMethods : List (String × (CoachContext → String)) :=
  [("get_context_summary", CoachContext.get_context_summary)]

/-! ### Orchestrator (`orchestrator.py`) -/

/-- One entry of `(role, content)` conversation history (`ChatMessage`). -/
structure ChatMsg where
  role : String
  content : String
deriving DecidableEq, Repr

/-- A model-requested tool call.  The source carries the argument map as a
JSON string decoded by the defensive `parse_tool_arguments`; the decoded
map is embedded directly (no claim exercises the string decoding). -/
structure ToolCallReq where
  id : String
  fname : String
  arguments : List (String × PyVal)
deriving DecidableEq, Repr

/-- Provider `Message` dataclass. -/
structure Message where
  role : String
  content : Option String
  tool_calls : List ToolCallReq := []
  tool_call_id : Option String := none
  name : Option String := none
deriving DecidableEq, Repr

/-- Provider `LLMResponse` (usage split into its two consulted counters). -/
structure LLMResponse where
  content : Option String
  tool_calls : List ToolCallReq
  finish_reason : String
  promptTokens : Nat
  completionTokens : Nat

/-- One entry of the explainability trace (the descriptive prose fields
and the wall-clock latency of the source's entry are elided — no claim
reads them). -/
structure ToolTrace where
  name : String
  success : Bool
  cached : Bool
deriving DecidableEq, Repr

/-- `OrchestratorResult` dataclass. -/
structure OrchestratorResult where
  response : String
  tool_calls : List ToolTrace
  tokens_used : Nat
  finish_reason : String
deriving DecidableEq, Repr

/-- The fixed apology of the exhausted loop. -/
def apologyMessage : String :=
  "I apologize, but I\x27m having trouble processing your request. Please try again."

/-- Loop state: the growing message array, accumulated traces and token
count, plus two instrumentation counters (provider calls made, tool bodies
executed) observing the claims' "at most N calls" statements. -/
structure LoopState where
  msgs : List Message
  traces : List ToolTrace
  tokens : Nat
  providerCalls : Nat
  toolExecs : Nat
deriving DecidableEq, Repr

/-- The per-round tool-call processing of `process_message`: execute each
requested call, append its trace entry and its `tool` message (JSON dump
of the payload on success, `Error: <message>` on failure; `str(None)` is
`"None"`). -/
def processToolCalls (runTool : String → List (String × PyVal) → ToolResult)
    (tcs : List ToolCallReq) (st : LoopState) : LoopState :=
  tcs.foldl (fun acc tc =>
    let result := runTool tc.fname tc.arguments
    { acc with
      traces := acc.traces
        ++ [{ name := tc.fname, success := result.success,
              cached := result.cached }],
      toolExecs := acc.toolExecs + 1,
      msgs := acc.msgs
        ++ [{ role := "tool",
              content := some (if result.success then dumpsVal result.data
                else "Error: " ++ (match result.error with
                  | some e => e
                  | none => "None")),
              tool_call_id := some tc.id, name := some tc.fname }] }) st

/-- The bounded tool-calling loop of `process_message`
(`for _ in range(max_iterations)` with `max_iterations = 5`), fuel-indexed.
Exhausted fuel returns the fixed apology with
`finish_reason="max_iterations"`. -/
def processLoopAux (provider : List Message → LLMResponse)
    (runTool : String → List (String × PyVal) → ToolResult) :
    Nat → LoopState → OrchestratorResult × LoopState
  | 0, st =>
    ({ response := apologyMessage, tool_calls := st.traces,
       tokens_used := st.tokens, finish_reason := "max_iterations" }, st)
  | fuel + 1, st =>
    let r := provider st.msgs
    let st1 := { st with
      tokens := st.tokens + r.promptTokens + r.completionTokens,
      providerCalls := st.providerCalls + 1 }
    if r.tool_calls.isEmpty || r.finish_reason ≠ "tool_calls" then
      ({ response := r.content.getD "", tool_calls := st1.traces,
         tokens_used := st1.tokens, finish_reason := r.finish_reason }, st1)
    else
      let st2 := { st1 with msgs := st1.msgs
        ++ [{ role := "assistant", content := r.content,
              tool_calls := r.tool_calls }] }
      processLoopAux provider runTool fuel
        (processToolCalls runTool r.tool_calls st2)

/-- The loop of `process_message` started on a built message array. -/
def processLoop (provider : List Message → LLMResponse)
    (runTool : String → List (String × PyVal) → ToolResult)
    (msgs : List Message) : OrchestratorResult × LoopState :=
  processLoopAux provider runTool 5
    { msgs := msgs, traces := [], tokens := 0, providerCalls := 0,
      toolExecs := 0 }

/-- `get_system_prompt("coach")` (the coaching prose is abbreviated: no
theorem inspects it). -/
def systemPromptCoach : String := "COACH_SYSTEM_PROMPT"

/-- `CoachOrchestrator._build_messages`.  The source computes the system
prompt, then evaluates `context.get_compact_summary()` — an attribute
lookup on the `CoachContext` instance.  The lookup is embedded against the
class's method table; an absent attribute raises `AttributeError`, embedded
as `Except.error`.  The remainder (history capped to the last 6 entries,
then the user message) is the source's construction. -/
def buildMessages (user_message : String) (context : CoachContext)
    (history : Option (List ChatMsg)) : Except String (List Message) :=
  match coachContextStringMethods.lookup "get_compact_summary" with
  | none =>
      .error "AttributeError: \x27CoachContext\x27 object has no attribute \x27get_compact_summary\x27"
  | some f =>
      let context_summary := f context
      let system_content := systemPromptCoach
        ++ (if !context_summary.isEmpty then
              "\n\n## User Context\n" ++ context_summary else "")
      let hist := match history with
        | some h => (h.drop (h.length - 6)).map
            (fun m => { role := m.role, content := some m.content,
                        tool_calls := [] : Message })
        | none => []
      .ok ([({ role := "system", content := some system_content } : Message)]
        ++ hist
        ++ [({ role := "user", content := some user_message } : Message)])

/-- `CoachOrchestrator.process_message`: build the message array, then run
the bounded loop.  The `Except` layer carries the `AttributeError` of
`_build_messages`. -/
def processMessage (provider : List Message → LLMResponse)
    (runTool : String → List (String × PyVal) → ToolResult)
    (user_message : String) (context : CoachContext)
    (history : Option (List ChatMsg)) :
    Except String (OrchestratorResult × LoopState) :=
  match buildMessages user_message context history with
  | .error e => .error e
  | .ok msgs => .ok (processLoop provider runTool msgs)

/-! ### Weight trend (`checkins/service.py`, `calculate_weight_trend`)

The embedding takes the fetched rows (date as an absolute day number,
weight as `ℚ`) in ascending date order with non-null weights — exactly the
shape the source's query produces. -/

/-- One fetched check-in row. -/
structure WeightPoint where
  date : ℤ
  weight : ℚ
deriving DecidableEq, Repr

/-- One `WeightTrendData` point. -/
structure TrendPoint where
  date : ℤ
  weight_kg : ℚ
  moving_average_7d : Option ℚ
deriving DecidableEq, Repr

/-- `WeightTrendResponse`. -/
structure WeightTrendResponse where
  data : List TrendPoint
  weekly_rate_of_change : Option ℚ
  total_change : Option ℚ
  start_weight : Option ℚ
  current_weight : Option ℚ
deriving DecidableEq, Repr

/-- `round(x, 2)`. -/
def round2 (q : ℚ) : ℚ := ((round (q * 100) : ℤ) : ℚ) / 100

/-- `round(x, 3)`. -/
def round3 (q : ℚ) : ℚ := ((round (q * 1000) : ℤ) : ℚ) / 1000

/-- `weights[window_start : i + 1]` with `window_start = max(0, i - 6)`
(truncated `Nat` subtraction is that `max`). -/
def maWindow (weights : List ℚ) (i : Nat) : List ℚ :=
  (weights.take (i + 1)).drop (i - 6)

/-- `sum(window) / len(window) if len(window) >= 3 else None`. -/
def maRaw (weights : List ℚ) (i : Nat) : Option ℚ :=
  let w := maWindow weights i
  if 3 ≤ w.length then some (w.sum / (w.length : ℚ)) else none

/-- `round(ma_7d, 2) if ma_7d else None` (Python truthiness: a zero mean
is also stored as `None`). -/
def maStored (weights : List ℚ) (i : Nat) : Option ℚ :=
  match maRaw weights i with
  | some v => if v ≠ 0 then some (round2 v) else none
  | none => none

/-- `CheckInService.calculate_weight_trend` on the fetched rows. -/
def calculateWeightTrend (cs : List WeightPoint) : WeightTrendResponse :=
  match cs with
  | [] => ⟨[], none, none, none, none⟩
  | c0 :: rest =>
    let checkins := c0 :: rest
    let weights := checkins.map (·.weight)
    let data := (List.range checkins.length).map (fun i =>
      { date := ((checkins.get? i).getD c0).date,
        weight_kg := (weights.get? i).getD 0,
        moving_average_7d := maStored weights i : TrendPoint })
    let firstW := c0.weight
    let lastC := checkins.getLast?.getD c0
    let lastW := lastC.weight
    let daysElapsed : ℤ := lastC.date - c0.date
    let weeklyRate :=
      if 0 < daysElapsed then
        some (round3 ((lastW - firstW) / (daysElapsed : ℚ) * 7))
      else none
    ⟨data, weeklyRate, some (round2 (lastW - firstW)), some firstW,
     some lastW⟩

/-! ## Helper lemmas -/

/-- Every early-return value of a `firstHit` loop satisfies any property
satisfied by every possible body return. -/
lemma firstHit_shape {α β : Type} (f : α → Option β) (P : β → Prop)
    (l : List α) (h : ∀ x ∈ l, ∀ r, f x = some r → P r) :
    ∀ r, firstHit f l = some r → P r := by
  induction l with
  | nil => intro r hr; simp [firstHit] at hr
  | cons x xs ih =>
    intro r hr
    unfold firstHit at hr
    rcases hfx : f x with _ | v <;> rw [hfx] at hr <;> dsimp only at hr
    · exact ih (fun y hy r2 h2 => h y (List.mem_cons_of_mem _ hy) r2 h2) r hr
    · injection hr with h2
      subst h2
      exact h x (List.mem_cons_self _ _) _ hfx

/-- `EatingDisorderPolicy.check_input` returns the concern response or the
allow result. -/
lemma edCheckInput_cases (s : String) (c : UserContext) :
    edCheckInput s c = edConcernResponse ∨ edCheckInput s c = allowR := by
  unfold edCheckInput
  dsimp only
  split_ifs <;> simp

/-- Every early return of the calorie input loop is the threshold-modify
result. -/
lemma calInStep_shape (low : List Char) (m : Nat) (p : CapPat)
    (r : PolicyResult) (h : calInStep low m p = some r) :
    r = calInModify m := by
  unfold calInStep at h
  rcases hcs : capSearch p low with _ | v <;> rw [hcs] at h <;>
    dsimp only at h
  · exact absurd h (by simp)
  · by_cases hv : v < m
    · rw [if_pos hv] at h; injection h with h3; exact h3.symm
    · rw [if_neg hv] at h; exact absurd h (by simp)

/-- `CaloriePolicy.check_input` returns the threshold-modify result or the
allow result. -/
lemma calCheckInput_cases (s : String) (c : UserContext) :
    calCheckInput s c = calInModify (minCalFor c)
      ∨ calCheckInput s c = allowR := by
  unfold calCheckInput
  rcases hfh : firstHit (calInStep (pyLower s) (minCalFor c)) calInPatterns
    with _ | r
  · right; rfl
  · left
    show r = calInModify (minCalFor c)
    exact firstHit_shape _ (fun r => r = calInModify (minCalFor c))
      calInPatterns (fun x _ r2 h2 => calInStep_shape _ _ _ _ h2) r hfh

/-- Every early return of the weight-loss input loop is a scaled modify
result or the generic modify result. -/
lemma wlInStep_shape (low : List Char) (cw : Option ℚ) (p : CapPat)
    (r : PolicyResult) (h : wlInStep low cw p = some r) :
    (∃ q, r = wlModifyScaled q) ∨ r = wlModifyGeneric := by
  unfold wlInStep at h
  rcases hcs : capSearch p low with _ | v <;> rw [hcs] at h <;>
    dsimp only at h
  · exact absurd h (by simp)
  · rcases cw with _ | w <;> dsimp only at h
    · split_ifs at h
      injection h with h3; right; exact h3.symm
    · split_ifs at h
      · injection h with h3; left; exact ⟨_, h3.symm⟩
      · injection h with h3; right; exact h3.symm

/-- `WeightLossPolicy.check_input` returns a scaled modify result, the
generic modify result, or the allow result. -/
lemma wlCheckInput_cases (s : String) (c : UserContext) :
    (∃ q, wlCheckInput s c = wlModifyScaled q)
      ∨ wlCheckInput s c = wlModifyGeneric ∨ wlCheckInput s c = allowR := by
  unfold wlCheckInput
  rcases hfh : firstHit (wlInStep (pyLower s) c.current_weight_kg)
      wlInPatterns with _ | r
  · right; right; rfl
  · have hshape : (∃ q, r = wlModifyScaled q) ∨ r = wlModifyGeneric :=
      firstHit_shape _
        (fun r => (∃ q, r = wlModifyScaled q) ∨ r = wlModifyGeneric)
        wlInPatterns (fun x _ r2 h2 => wlInStep_shape _ _ _ _ h2) r hfh
    rcases hshape with ⟨q, hq⟩ | hg
    · exact Or.inl ⟨q, by rw [hq]; rfl⟩
    · exact Or.inr (Or.inl (by rw [hg]; rfl))

/-- The allow-with-disclaimer result of `MedicalClaimsPolicy.check_input`. -/
def medAllowDisc : PolicyResult :=
  { passed := true, action := .allow, disclaimer := some medDisclaimer }

/-- `MedicalClaimsPolicy.check_input` returns the referral, the
allow-with-disclaimer result, or the allow result. -/
lemma medCheckInput_cases (s : String) (c : UserContext) :
    medCheckInput s c = medReferral ∨ medCheckInput s c = medAllowDisc
      ∨ medCheckInput s c = allowR := by
  unfold medCheckInput
  dsimp only
  split_ifs <;> simp [medAllowDisc]

/-- On every result the four policies can produce on an input, the claim's
short-circuit condition (non-null message) and the source's (truthy
message) agree. -/
lemma default_bridge (s : String) (c : UserContext) :
    ∀ p ∈ defaultPolicies,
      (claimSC (p.check_input s c) ↔ scGuard (p.check_input s c) = true) := by
  intro p hp
  simp only [defaultPolicies, List.mem_cons, List.not_mem_nil, or_false]
    at hp
  rcases hp with h | h | h | h <;> subst h
  · show claimSC (edCheckInput s c) ↔ scGuard (edCheckInput s c) = true
    rcases edCheckInput_cases s c with h | h <;> rw [h] <;> decide
  · show claimSC (calCheckInput s c) ↔ scGuard (calCheckInput s c) = true
    rcases calCheckInput_cases s c with h | h <;> rw [h]
    · simp [claimSC, scGuard, calInModify]
    · decide
  · show claimSC (wlCheckInput s c) ↔ scGuard (wlCheckInput s c) = true
    rcases wlCheckInput_cases s c with ⟨q, h⟩ | h | h <;> rw [h]
    · simp [claimSC, scGuard, wlModifyScaled]
    · simp [claimSC, scGuard, wlModifyGeneric]
    · decide
  · show claimSC (medCheckInput s c) ↔ scGuard (medCheckInput s c) = true
    rcases medCheckInput_cases s c with h | h | h <;> rw [h] <;> decide

/-- Under the bridge hypothesis, the engine's input loop computes the
claim's first-short-circuit reference. -/
lemma checkInputList_eq_claim (s : String) (c : UserContext) :
    ∀ ps : List BasePolicy,
      (∀ p ∈ ps,
        (claimSC (p.check_input s c) ↔ scGuard (p.check_input s c) = true)) →
      checkInputList ps s c =
        (firstClaimSC (ps.map (fun p => p.check_input s c))).getD allowR := by
  intro ps
  induction ps with
  | nil => intro _; rfl
  | cons p tl ih =>
    intro h
    show (if scGuard (p.check_input s c) then p.check_input s c
          else checkInputList tl s c) = _
    rw [List.map_cons, firstClaimSC]
    by_cases hg : scGuard (p.check_input s c) = true
    · rw [if_pos hg, if_pos ((h p (List.mem_cons_self _ _)).mpr hg)]
      rfl
    · rw [if_neg hg, if_neg (fun hc =>
        hg ((h p (List.mem_cons_self _ _)).mp hc))]
      exact ih (fun q hq => h q (List.mem_cons_of_mem _ hq))

/-- Under the bridge hypothesis, when the claim's first short-circuit lies
within the first `n` policies, the loop's value on that prefix already
equals its value on the whole list — the policies after the
short-circuiting one are irrelevant. -/
lemma checkInputList_take (s : String) (c : UserContext) :
    ∀ (ps : List BasePolicy) (n : Nat),
      (∀ p ∈ ps,
        (claimSC (p.check_input s c) ↔ scGuard (p.check_input s c) = true)) →
      (firstClaimSC ((ps.map (fun p => p.check_input s c)).take n)).isSome
        = true →
      checkInputList (ps.take n) s c = checkInputList ps s c := by
  intro ps
  induction ps with
  | nil =>
    intro n _ hsome
    simp [firstClaimSC] at hsome
  | cons p tl ih =>
    intro n h hsome
    cases n with
    | zero => simp [firstClaimSC] at hsome
    | succ n =>
      rw [List.take_succ_cons]
      show (if scGuard (p.check_input s c) then p.check_input s c
            else checkInputList (tl.take n) s c) = _
      show _ = (if scGuard (p.check_input s c) then p.check_input s c
            else checkInputList tl s c)
      by_cases hg : scGuard (p.check_input s c) = true
      · rw [if_pos hg, if_pos hg]
      · rw [if_neg hg, if_neg hg]
        refine ih n (fun q hq => h q (List.mem_cons_of_mem _ hq)) ?_
        rw [List.map_cons, List.take_succ_cons, firstClaimSC,
          if_neg (fun hc => hg ((h p (List.mem_cons_self _ _)).mp hc))]
          at hsome
        exact hsome

/-! ## Claim C1 -/

/-- C1.  For every user input and context, the engine's `check_input`
equals the claim's reference computation: the result of the first policy
(in the engine's fixed order) whose result has `passed=false`, action
block or flag, and a non-null message — and `passed=true`/allow when no
policy produces such a result; moreover, whenever that first
short-circuit lies among the first `n` policies, running the engine on
just those `n` policies already yields the same result, so no later
policy influences the outcome. -/
theorem claim_C1 (input : String) (ctx : UserContext) :
    engineCheckInput input ctx =
      (firstClaimSC (defaultPolicies.map
        (fun p => p.check_input input ctx))).getD allowR
    ∧ ∀ n, (firstClaimSC ((defaultPolicies.map
          (fun p => p.check_input input ctx)).take n)).isSome = true →
        checkInputList (defaultPolicies.take n) input ctx
          = engineCheckInput input ctx := by
  constructor
  · exact checkInputList_eq_claim input ctx defaultPolicies
      (default_bridge input ctx)
  · intro n hsome
    exact checkInputList_take input ctx defaultPolicies n
      (default_bridge input ctx) hsome

/-- Witness for C1 at a concrete input: the eating-disorder policy
short-circuits within the first policy alone. -/
theorem claim_C1_witness :
    engineCheckInput "i want to purge" { user_id := "u" } =
      (firstClaimSC (defaultPolicies.map
        (fun p => p.check_input "i want to purge" { user_id := "u" }))).getD
        allowR
    ∧ checkInputList (defaultPolicies.take 1) "i want to purge"
        { user_id := "u" }
        = engineCheckInput "i want to purge" { user_id := "u" } :=
  ⟨(claim_C1 "i want to purge" { user_id := "u" }).1,
   (claim_C1 "i want to purge" { user_id := "u" }).2 1 (by decide)⟩

/-! ## Claim C2 -/

/-- C2.  Every input containing a configured eating-disorder keyword (in
the lowercased text, as the source lowercases before matching) or matching
a configured eating-disorder phrase pattern makes the *engine's*
`check_input` return the eating-disorder policy's concern result:
`passed=false`, `action=flag`, with the supportive message containing the
NEDA crisis line — the eating-disorder policy is evaluated first, so this
holds whatever lower-priority policies would also match. -/
theorem claim_C2 (input : String) (ctx : UserContext)
    (h : (∃ k ∈ edKeywords, containsSubL k.data (pyLower input) = true)
       ∨ (∃ m ∈ edPhrases, mSearch m (pyLower input) = true)) :
    engineCheckInput input ctx = edConcernResponse
    ∧ edConcernResponse.passed = false
    ∧ edConcernResponse.action = .flag
    ∧ edConcernResponse.message = some edConcernMessage
    ∧ containsS edConcernMessage "1-800-931-2237" = true := by
  have hed : edCheckInput input ctx = edConcernResponse := by
    unfold edCheckInput
    dsimp only
    rcases h with ⟨k, hk, hc⟩ | ⟨m, hm, hs⟩
    · rw [if_pos (List.any_eq_true.mpr ⟨k, hk, hc⟩)]
    · by_cases hkw : (edKeywords.any
          fun k => containsSubL k.data (pyLower input)) = true
      · rw [if_pos hkw]
      · rw [if_neg hkw, if_pos (List.any_eq_true.mpr ⟨m, hm, hs⟩)]
  refine ⟨?_, rfl, rfl, rfl, by decide⟩
  show checkInputList defaultPolicies input ctx = edConcernResponse
  unfold defaultPolicies checkInputList
  dsimp only
  rw [show eatingDisorderPolicy.check_input input ctx
        = edCheckInput input ctx from rfl, hed,
    if_pos (by decide : scGuard edConcernResponse = true)]

/-- Witness for C2 at an input that also matches the calorie policy
(`500 cal` is a two-to-three-digit calorie figure): the keyword `purge`
still wins because the eating-disorder policy runs first. -/
theorem claim_C2_witness :
    (∃ k ∈ edKeywords, containsSubL k.data
      (pyLower "i purge after meals and eat only 500 cal") = true)
    ∧ engineCheckInput "i purge after meals and eat only 500 cal"
        { user_id := "u", sex := some "female" } = edConcernResponse := by
  have hk : ∃ k ∈ edKeywords, containsSubL k.data
      (pyLower "i purge after meals and eat only 500 cal") = true :=
    ⟨"purge", by decide, by decide⟩
  exact ⟨hk, (claim_C2 "i purge after meals and eat only 500 cal"
    { user_id := "u", sex := some "female" } (Or.inl hk)).1⟩

/-! ## Claim C5 -/

/-- Membership after de-duplication: in the remainder and not already
seen. -/
lemma mem_dedupFirstAux (d : String) :
    ∀ (l seen : List String),
      d ∈ dedupFirstAux seen l ↔ d ∈ l ∧ d ∉ seen := by
  intro l
  induction l with
  | nil => intro seen; simp [dedupFirstAux]
  | cons x xs ih =>
    intro seen
    rw [dedupFirstAux]
    by_cases hx : x ∈ seen
    · rw [if_pos hx, ih]
      constructor
      · rintro ⟨h1, h2⟩; exact ⟨List.mem_cons_of_mem _ h1, h2⟩
      · rintro ⟨h1, h2⟩
        rcases List.mem_cons.mp h1 with h | h
        · exact absurd (h ▸ hx) h2
        · exact ⟨h, h2⟩
    · rw [if_neg hx]
      simp only [List.mem_cons, ih]
      by_cases hd : d = x
      · subst hd; simp [hx]
      · simp [hd]

/-- Every member of a list occurs exactly once after first-occurrence
de-duplication. -/
lemma count_dedupFirstAux (d : String) :
    ∀ (l seen : List String), d ∈ l → d ∉ seen →
      (dedupFirstAux seen l).count d = 1 := by
  intro l
  induction l with
  | nil => intro seen h _; simp at h
  | cons x xs ih =>
    intro seen hmem hns
    rw [dedupFirstAux]
    by_cases hx : x ∈ seen
    · rw [if_pos hx]
      rcases List.mem_cons.mp hmem with h | h
      · exact absurd (h ▸ hx) hns
      · exact ih seen h hns
    · rw [if_neg hx]
      by_cases hd : d = x
      · subst hd
        rw [List.count_cons_self]
        have hnot : d ∉ dedupFirstAux (d :: seen) xs := by
          rw [mem_dedupFirstAux]
          simp
        rw [List.count_eq_zero.mpr hnot]
      · rw [List.count_cons_of_ne hd]
        rcases List.mem_cons.mp hmem with h | h
        · exact absurd h hd
        · exact ih (x :: seen) h (by simp [hd, hns])

/-- Every member of a list occurs exactly once in its de-duplication. -/
lemma count_dedupFirst (d : String) (l : List String) (h : d ∈ l) :
    (dedupFirst l).count d = 1 :=
  count_dedupFirstAux d l [] h (by simp)

/-- When no round of the output iteration blocks, `check_output` reduces
to: final working text, plus the collected disclaimers, injected through
`mkOutFinal`. -/
lemma checkOutputAux_no_block (c : UserContext) :
    ∀ (ps : List BasePolicy) (orig modText : String) (ds : List String),
      outBlockedAux ps c modText = false →
      checkOutputAux ps c orig modText ds =
        mkOutFinal orig (finalTextAux ps c modText)
          (ds ++ collectDisc ps c modText) := by
  intro ps
  induction ps with
  | nil =>
    intro orig modText ds _
    simp [checkOutputAux, finalTextAux, collectDisc]
  | cons p tl ih =>
    intro orig modText ds hnb
    have hnb2 : outBlockGuard (p.check_output modText c) = false
        ∧ outBlockedAux tl c (nextMod modText (p.check_output modText c))
            = false := by
      unfold outBlockedAux at hnb
      dsimp only at hnb
      by_cases hg : outBlockGuard (p.check_output modText c) = true
      · rw [if_pos hg] at hnb; exact absurd hnb (by simp)
      · rw [if_neg hg] at hnb
        exact ⟨Bool.not_eq_true _ ▸ hg, hnb⟩
    unfold checkOutputAux finalTextAux collectDisc
    dsimp only
    rw [if_neg (by simp [hnb2.1]),
      ih orig (nextMod modText (p.check_output modText c))
        (ds ++ discStep (p.check_output modText c)) hnb2.2,
      List.append_assoc]

/-- C5 (amended: texts on which some policy blocks are returned as that
block result instead — see the counterexample).  When no policy blocks,
`check_output` feeds each policy the progressively modified text, collects
every emitted disclaimer, de-duplicates them by exact text keeping
encounter order, appends them once to the final text, and returns
`passed=true`/allow with `modified_content` non-null exactly when the
final text differs from the input; each emitted disclaimer occurs exactly
once in the de-duplicated injection. -/
theorem claim_C5_amended (ps : List BasePolicy) (text : String)
    (c : UserContext) (hnb : outBlockedAux ps c text = false) :
    let ds := collectDisc ps c text
    let modT := finalTextAux ps c text
    let final := if ds.isEmpty then modT else modT ++ joinNL (dedupFirst ds)
    checkOutputList ps text c =
      { passed := true, action := .allow,
        modified_content := if final ≠ text then some final else none }
    ∧ ∀ d ∈ ds, (dedupFirst ds).count d = 1 := by
  refine ⟨?_, fun d hd => count_dedupFirst d _ hd⟩
  rw [checkOutputList, checkOutputAux_no_block c ps text text [] hnb,
    List.nil_append]
  rfl

/-- Counterexample to C5 as stated: on the output `"skip all meals"` the
eating-disorder policy blocks, so the engine's `check_output` returns
`passed=false` with a block action — not the `passed=true` disclaimer
aggregation the claim asserts for every output text. -/
theorem claim_C5_counterexample :
    (engineCheckOutput "skip all meals" { user_id := "u" }).passed = false
    ∧ (engineCheckOutput "skip all meals" { user_id := "u" }).action
        = .block := by
  constructor <;> decide

/-- Witness for C5: two policies emitting the same disclaimer `"D"` yield
exactly one occurrence in the final content. -/
theorem claim_C5_witness :
    let pd : BasePolicy :=
      ⟨fun _ _ => allowR,
       fun _ _ =>
         { passed := true, action := .allow, disclaimer := some "D" }⟩
    checkOutputList [pd, pd] "x" { user_id := "u" } =
      { passed := true, action := .allow, modified_content := some "xD" }
    ∧ (dedupFirst (collectDisc [pd, pd] { user_id := "u" } "x")).count "D"
        = 1 := by
  intro pd
  have h := claim_C5_amended [pd, pd] "x" { user_id := "u" } (by decide)
  exact ⟨h.1.trans (by decide), h.2 "D" (by decide)⟩

/-! ## Claim C6 -/

/-- `CaloriePolicy.check_output` returns the threshold-modify result or
the allow result. -/
lemma calCheckOutput_cases (s : String) (c : UserContext) :
    calCheckOutput s c = calOutModify (minCalFor c)
      ∨ calCheckOutput s c = allowR := by
  unfold calCheckOutput
  dsimp only
  split_ifs <;> simp

/-- The input-side violation message names the threshold. -/
lemma calInMessage_names_threshold (c : UserContext) :
    containsS (calInMessage (minCalFor c)) (Nat.repr (minCalFor c))
      = true := by
  unfold minCalFor
  by_cases h : c.sex = some "female"
  · rw [if_pos h]; decide
  · rw [if_neg h]; decide

/-- The output-side disclaimer names the threshold. -/
lemma calOutDisclaimer_names_threshold (c : UserContext) :
    containsS (calOutDisclaimer (minCalFor c)) (Nat.repr (minCalFor c))
      = true := by
  unfold minCalFor
  by_cases h : c.sex = some "female"
  · rw [if_pos h]; decide
  · rw [if_neg h]; decide

/-- Counterexample to C6 as stated: the input
`"i eat 1100 calories a day"` mentions 1100 calories, below the female
minimum 1200, yet `CaloriePolicy.check_input` returns the allow result
(no modify action): a bare four-digit figure matches none of the four
configured input patterns (`\b(\d{2,3})…`, `under…`, `only…`,
`less than…`). -/
theorem claim_C6_counterexample :
    containsS "i eat 1100 calories a day" "1100 calories" = true
    ∧ (1100 : Nat) < MIN_CALORIES_FEMALE
    ∧ calCheckInput "i eat 1100 calories a day"
        { user_id := "u", sex := some "female" } = allowR
    ∧ (calCheckInput "i eat 1100 calories a day"
        { user_id := "u", sex := some "female" }).action
        ≠ PolicyAction.modify := by
  refine ⟨by decide, by decide, by decide, by decide⟩

/-- C6 (amended: only calorie figures captured by the policy's configured
patterns are detected; a sub-minimum mention outside every pattern passes
unflagged — see the counterexample).  Whenever `CaloriePolicy.check_input`
(resp. `check_output`) fires at all, its result is `action=modify` with
the message (resp. disclaimer) naming the exact sex-specific threshold
(1200 for `sex="female"`, else 1500). -/
theorem claim_C6_amended (s : String) (c : UserContext) :
    (calCheckInput s c ≠ allowR →
      calCheckInput s c = calInModify (minCalFor c)
      ∧ (calCheckInput s c).action = .modify
      ∧ (calCheckInput s c).message = some (calInMessage (minCalFor c))
      ∧ containsS (calInMessage (minCalFor c)) (Nat.repr (minCalFor c))
          = true)
    ∧ (calCheckOutput s c ≠ allowR →
      calCheckOutput s c = calOutModify (minCalFor c)
      ∧ (calCheckOutput s c).action = .modify
      ∧ (calCheckOutput s c).disclaimer
          = some (calOutDisclaimer (minCalFor c))
      ∧ containsS (calOutDisclaimer (minCalFor c)) (Nat.repr (minCalFor c))
          = true) := by
  constructor
  · intro hne
    rcases calCheckInput_cases s c with h | h
    · rw [h]
      exact ⟨rfl, rfl, rfl, calInMessage_names_threshold c⟩
    · exact absurd h hne
  · intro hne
    rcases calCheckOutput_cases s c with h | h
    · rw [h]
      exact ⟨rfl, rfl, rfl, calOutDisclaimer_names_threshold c⟩
    · exact absurd h hne

/-- Witness for C6: `"eat 99 cal"` fires the input side for a female
context (threshold 1200), `"aim for 900"` fires the output side for a
male context (threshold 1500). -/
theorem claim_C6_witness :
    (calCheckInput "i eat 99 cal" { user_id := "u", sex := some "female" }
        = calInModify 1200
      ∧ containsS (calInMessage 1200) "1200" = true)
    ∧ (calCheckOutput "aim for 900" { user_id := "u" }
        = calOutModify 1500
      ∧ containsS (calOutDisclaimer 1500) "1500" = true) := by
  have h1 := (claim_C6_amended "i eat 99 cal"
    { user_id := "u", sex := some "female" }).1 (by decide)
  have h2 := (claim_C6_amended "aim for 900" { user_id := "u" }).2
    (by decide)
  exact ⟨⟨h1.1, h1.2.2.2⟩, ⟨h2.1, h2.2.2.2⟩⟩

/-! ## Claim C7 -/

/-- A list starts with itself, whatever follows. -/
lemma startsWithL_append (p r : List Char) :
    startsWithL (p ++ r) p = true := by
  induction p with
  | nil => cases r <;> rfl
  | cons c cs ih =>
    show (decide (c = c) && startsWithL (cs ++ r) cs) = true
    simp [ih]

/-- A list contains its own prefix. -/
lemma containsSubL_append_self (pat z : List Char) :
    containsSubL pat (pat ++ z) = true := by
  cases pat with
  | nil => cases z <;> simp [containsSubL, startsWithL]
  | cons p ps =>
    rw [List.cons_append, containsSubL]
    have h := startsWithL_append (p :: ps) z
    rw [List.cons_append] at h
    simp [h]

/-- Lowercasing distributes over concatenation. -/
lemma pyLower_append (a b : String) :
    pyLower (a ++ b) = pyLower a ++ pyLower b := by
  unfold pyLower
  rw [String.data_append, List.map_append]

/-- C7.  `execute_tool` is total and fail-soft: an unregistered name gives
`success=false` with an error naming the unknown tool (and the lowercased
error contains the phrase `unknown tool`), leaving the cache world
untouched; an external tool without consent gives `success=false` with the
consent error, the body never running (the execution counter and cache are
unchanged); and a body that raises is caught and converted into
`success=false` carrying the exception's message. -/
theorem claim_C7 (reg : ToolRegistry) (now : Nat) (name uid : String)
    (args : List (String × PyVal)) (st : CacheState) :
    (reg.get_tool name = none →
      reg.execute_tool now name uid args st =
        ({ success := false, data := .null,
           error := some ("Unknown tool: " ++ name), cached := false }, st)
      ∧ containsSubL "unknown tool".data
          (pyLower ("Unknown tool: " ++ name)) = true)
    ∧ (∀ t, reg.get_tool name = some t → t.category = "external" →
        reg.has_consent uid name = false →
        reg.execute_tool now name uid args st =
          ({ success := false, data := .null,
             error := some "User consent required for external tool",
             cached := false }, st))
    ∧ (∀ t e, reg.get_tool name = some t →
        (t.category == "external" && !reg.has_consent uid name) = false →
        (t.cacheable && reg.hasRedis) = true →
          getCached st now (t.get_cache_key uid args) = none →
        t.execute uid args = .error e →
        reg.execute_tool now name uid args st =
          ({ success := false, data := .null, error := some e,
             cached := false },
           { st with bodyRuns := st.bodyRuns + 1 })) := by
  refine ⟨?_, ?_, ?_⟩
  · intro hnone
    constructor
    · unfold ToolRegistry.execute_tool
      rw [hnone]
    · rw [pyLower_append]
      have hlit : pyLower "Unknown tool: "
          = "unknown tool".data ++ ": ".data := by decide
      rw [hlit, List.append_assoc]
      exact containsSubL_append_self _ _
  · intro t hsome hext hnc
    unfold ToolRegistry.execute_tool
    rw [hsome]
    dsimp only
    rw [if_pos (by simp [hext, hnc])]
  · intro t e hsome hguard hcr hmiss hraise
    unfold ToolRegistry.execute_tool
    rw [hsome]
    dsimp only
    rw [if_neg (by simp [hguard])]
    rw [if_pos hcr, hmiss]
    dsimp only
    rw [hraise]

/-- Witness for C7 on a concrete two-tool registry: an unknown name, a
non-consented external tool, and a raising internal body. -/
theorem claim_C7_witness :
    let boomTool : BaseTool :=
      { name := "boom", category := "internal", cacheable := true,
        cache_ttl_seconds := 60, execute := fun _ _ => .error "kaput" }
    let extTool : BaseTool :=
      { name := "ext", category := "external",
        execute := fun _ _ => .ok { success := true, data := .int 1 } }
    let reg : ToolRegistry :=
      { tools := [("boom", boomTool), ("ext", extTool)], hasRedis := true,
        consents := [] }
    let st : CacheState := { entries := [], bodyRuns := 0 }
    (reg.execute_tool 0 "nope" "u" [] st).1 =
      { success := false, data := .null,
        error := some "Unknown tool: nope", cached := false }
    ∧ (reg.execute_tool 0 "ext" "u" [] st).1.success = false
    ∧ (reg.execute_tool 0 "ext" "u" [] st).2.bodyRuns = 0
    ∧ (reg.execute_tool 0 "boom" "u" [] st).1 =
      { success := false, data := .null, error := some "kaput",
        cached := false } := by
  intro boomTool extTool reg st
  refine ⟨?_, ?_, ?_, ?_⟩
  · rw [congrArg Prod.fst ((claim_C7 reg 0 "nope" "u" [] st).1 rfl).1]
    decide
  · rw [congrArg Prod.fst
      ((claim_C7 reg 0 "ext" "u" [] st).2.1 extTool rfl rfl rfl)]
  · rw [congrArg Prod.snd
      ((claim_C7 reg 0 "ext" "u" [] st).2.1 extTool rfl rfl rfl)]
  · rw [congrArg Prod.fst
      ((claim_C7 reg 0 "boom" "u" [] st).2.2 boomTool "kaput" rfl
        (by decide) rfl rfl rfl)]

/-! ## Claim C8 -/

/-- On association lists with distinct keys, `lookup` agrees with
membership. -/
lemma lookup_mem_iff (k : String) (v : PyVal) :
    ∀ l : List (String × PyVal), (l.map Prod.fst).Nodup →
      (l.lookup k = some v ↔ (k, v) ∈ l) := by
  intro l
  induction l with
  | nil => intro _; simp [List.lookup]
  | cons a t ih =>
    intro hnd
    rw [List.map_cons, List.nodup_cons] at hnd
    obtain ⟨ha, ht⟩ := hnd
    rw [List.lookup]
    by_cases hk : k = a.1
    · rw [show (k == a.1) = true from beq_iff_eq.mpr hk]
      dsimp only
      constructor
      · intro hv
        injection hv with hv
        subst hv
        rw [hk]
        exact List.mem_cons_self a t
      · intro hm
        rcases List.mem_cons.mp hm with h | h
        · rw [← h]
        · exact absurd (hk ▸ List.mem_map_of_mem Prod.fst h) ha
    · rw [show (k == a.1) = false from beq_eq_false_iff_ne.mpr hk]
      dsimp only
      rw [ih ht]
      constructor
      · exact List.mem_cons_of_mem _
      · intro hm
        rcases List.mem_cons.mp hm with h | h
        · exact absurd (congrArg Prod.fst h) hk
        · exact h

/-- `lookup` is invariant under permutation when keys are distinct. -/
lemma lookup_perm (k : String) (l1 l2 : List (String × PyVal))
    (hp : l1.Perm l2) (hnd : (l1.map Prod.fst).Nodup) :
    l1.lookup k = l2.lookup k := by
  have hnd2 : (l2.map Prod.fst).Nodup := ((hp.map Prod.fst).nodup_iff).mp hnd
  cases h1 : l1.lookup k with
  | some v =>
    exact ((lookup_mem_iff k v l2 hnd2).mpr
      (hp.subset ((lookup_mem_iff k v l1 hnd).mp h1))).symm
  | none =>
    cases h2 : l2.lookup k with
    | none => rfl
    | some w =>
      have := (lookup_mem_iff k w l1 hnd).mpr
        (hp.symm.subset ((lookup_mem_iff k w l2 hnd2).mp h2))
      rw [h1] at this
      exact absurd this (by simp)

/-- The canonical (key-sorted) item list of an argument dict does not
depend on the order the arguments were listed in. -/
lemma canonicalItems_perm (l1 l2 : List (String × PyVal))
    (hp : l1.Perm l2) (hnd : (l1.map Prod.fst).Nodup) :
    canonicalItems l1 = canonicalItems l2 := by
  unfold canonicalItems
  haveI : IsAntisymm String (· ≤ ·) := ⟨fun _ _ h1 h2 => le_antisymm h1 h2⟩
  have hkeys : List.insertionSort (· ≤ ·) (l1.map Prod.fst)
      = List.insertionSort (· ≤ ·) (l2.map Prod.fst) :=
    List.eq_of_perm_of_sorted
      ((List.perm_insertionSort _ _).trans
        ((hp.map _).trans (List.perm_insertionSort _ _).symm))
      (List.sorted_insertionSort _ _) (List.sorted_insertionSort _ _)
  rw [hkeys]
  apply List.map_congr_left
  intro k _
  rw [lookup_perm k l1 l2 hp hnd]

/-- Reading back right after a cache write within the TTL window returns
the stored payload, when that payload is not JSON `null`. -/
lemma getCached_insert (st : CacheState) (now t0 ttl : Nat) (key : String)
    (v : PyVal) (hv : v ≠ .null) (ht : now < t0 + ttl) :
    getCached (setCached st t0 key ttl v) now key = some v := by
  unfold getCached setCached
  dsimp only
  rw [List.lookup, show (key == key) = true from beq_iff_eq.mpr rfl]
  dsimp only
  rw [if_pos ht]
  cases v <;> simp_all

/-- C8 (amended: the at-most-once guarantee additionally requires the
first call's successful payload to be non-null — a cached JSON `null`
round-trips through `json.loads` to Python `None`, which the cache read
treats as a miss, so a null payload is re-executed; see the
counterexample).  The cache key is a deterministic stable hash of
(tool name, user id, JSON-canonicalized key-sorted arguments) — in
particular invariant under reordering the argument dict — and two
`execute_tool` calls with identical (tool, user, args) within the tool's
TTL window run the body exactly once: the first returns the body's
result, the second returns `cached=true` with the identical data. -/
theorem claim_C8_amended (reg : ToolRegistry) (t : BaseTool)
    (name uid : String) (args : List (String × PyVal)) (st0 : CacheState)
    (t1 t2 : Nat) (res : ToolResult)
    (hlook : reg.get_tool name = some t)
    (hcache : t.cacheable = true) (hredis : reg.hasRedis = true)
    (hconsent : (t.category == "external" && !reg.has_consent uid name)
      = false)
    (hmiss : getCached st0 t1 (t.get_cache_key uid args) = none)
    (hbody : t.execute uid args = .ok res)
    (hsucc : res.success = true) (hdata : res.data ≠ .null)
    (httl : t2 < t1 + t.cache_ttl_seconds) :
    (reg.execute_tool t1 name uid args st0).1 = res
    ∧ (reg.execute_tool t2 name uid args
        (reg.execute_tool t1 name uid args st0).2).1 =
      { success := true, data := res.data, error := none, cached := true }
    ∧ (reg.execute_tool t2 name uid args
        (reg.execute_tool t1 name uid args st0).2).2.bodyRuns
      = st0.bodyRuns + 1
    ∧ (∀ args2, args.Perm args2 → (args.map Prod.fst).Nodup →
        t.get_cache_key uid args = t.get_cache_key uid args2) := by
  have h1 : reg.execute_tool t1 name uid args st0 =
      (res, setCached { st0 with bodyRuns := st0.bodyRuns + 1 } t1
        (t.get_cache_key uid args) t.cache_ttl_seconds res.data) := by
    unfold ToolRegistry.execute_tool
    rw [hlook]
    dsimp only
    rw [if_neg (by simp [hconsent]),
      if_pos (by simp [hcache, hredis]), hmiss]
    dsimp only
    rw [hbody]
    dsimp only
    rw [if_pos (by simp [hsucc, hcache, hredis])]
  have h2 : reg.execute_tool t2 name uid args
      (reg.execute_tool t1 name uid args st0).2 =
      ({ success := true, data := res.data, error := none, cached := true },
        (reg.execute_tool t1 name uid args st0).2) := by
    rw [h1]
    unfold ToolRegistry.execute_tool
    rw [hlook]
    dsimp only
    rw [if_neg (by simp [hconsent]),
      if_pos (by simp [hcache, hredis]),
      getCached_insert _ _ _ _ _ _ hdata httl]
  refine ⟨by rw [h1], by rw [h2], by rw [h2, h1]; rfl, ?_⟩
  intro args2 hp hnd
  unfold BaseTool.get_cache_key dumpsSorted
  rw [canonicalItems_perm args args2 hp hnd]

/-- Counterexample to C8 as stated: a tool whose successful payload is
JSON `null` is re-executed on the second call within the TTL window — the
second call reports `cached=false` and the body has run twice. -/
theorem claim_C8_counterexample :
    let nullTool : BaseTool :=
      { name := "n", category := "internal", cacheable := true,
        cache_ttl_seconds := 300,
        execute := fun _ _ => .ok { success := true, data := .null } }
    let reg : ToolRegistry :=
      { tools := [("n", nullTool)], hasRedis := true, consents := [] }
    let st0 : CacheState := { entries := [], bodyRuns := 0 }
    (reg.execute_tool 0 "n" "u" [] st0).1.success = true
    ∧ (1 : Nat) < 0 + 300
    ∧ (reg.execute_tool 1 "n" "u" []
        (reg.execute_tool 0 "n" "u" [] st0).2).1.cached = false
    ∧ (reg.execute_tool 1 "n" "u" []
        (reg.execute_tool 0 "n" "u" [] st0).2).2.bodyRuns = 2 := by
  intro nullTool reg st0
  refine ⟨by decide, by decide, by decide, by decide⟩

/-- Witness for C8 on a concrete registry: two calls at instants 0 and
100 with the same two-key argument dict; the body runs once, the second
call is a cache hit with identical data, and the key is invariant under
swapping the two arguments. -/
theorem claim_C8_witness :
    let okTool : BaseTool :=
      { name := "t", category := "internal", cacheable := true,
        cache_ttl_seconds := 300,
        execute := fun _ _ => .ok { success := true, data := .int 7 } }
    let reg : ToolRegistry :=
      { tools := [("t", okTool)], hasRedis := true, consents := [] }
    let st0 : CacheState := { entries := [], bodyRuns := 0 }
    let args : List (String × PyVal) := [("a", .int 1), ("b", .int 2)]
    (reg.execute_tool 0 "t" "u" args st0).1 =
      { success := true, data := .int 7, error := none, cached := false }
    ∧ (reg.execute_tool 100 "t" "u" args
        (reg.execute_tool 0 "t" "u" args st0).2).1 =
      { success := true, data := .int 7, error := none, cached := true }
    ∧ (reg.execute_tool 100 "t" "u" args
        (reg.execute_tool 0 "t" "u" args st0).2).2.bodyRuns = 1
    ∧ okTool.get_cache_key "u" args =
        okTool.get_cache_key "u" [("b", .int 2), ("a", .int 1)] := by
  intro okTool reg st0 args
  have h := claim_C8_amended reg okTool "t" "u" args st0 0 100
    { success := true, data := .int 7, error := none, cached := false }
    rfl rfl rfl (by decide) rfl rfl rfl (by decide) (by decide)
  refine ⟨h.1, ?_, h.2.2.1, ?_⟩
  · rw [h.2.1]
  · exact h.2.2.2 [("b", .int 2), ("a", .int 1)] (by decide) (by decide)

/-! ## Claims C3 and C10 -/

/-- Tool-call processing never touches the provider-call counter. -/
lemma processToolCalls_providerCalls
    (runTool : String → List (String × PyVal) → ToolResult)
    (tcs : List ToolCallReq) :
    ∀ st, (processToolCalls runTool tcs st).providerCalls
      = st.providerCalls := by
  induction tcs with
  | nil => intro st; rfl
  | cons tc tl ih =>
    intro st
    rw [processToolCalls] at *
    rw [List.foldl_cons]
    exact ih _

/-- The loop makes at most `fuel` provider calls. -/
lemma processLoopAux_calls_le (provider : List Message → LLMResponse)
    (runTool : String → List (String × PyVal) → ToolResult) :
    ∀ (fuel : Nat) (st : LoopState),
      (processLoopAux provider runTool fuel st).2.providerCalls
        ≤ st.providerCalls + fuel := by
  intro fuel
  induction fuel with
  | zero => intro st; exact Nat.le_refl _
  | succ fuel ih =>
    intro st
    rw [processLoopAux]
    dsimp only
    by_cases hc : ((provider st.msgs).tool_calls.isEmpty
        || decide ((provider st.msgs).finish_reason ≠ "tool_calls")) = true
    · rw [if_pos hc]
      dsimp only
      omega
    · rw [if_neg hc]
      refine (ih _).trans ?_
      rw [processToolCalls_providerCalls]
      dsimp only
      omega

/-- When the provider answers every message array with unresolved
tool-call requests, the loop exhausts its fuel: the result is the fixed
apology with `finish_reason="max_iterations"`, carrying the final state's
accumulated traces and token count, after exactly `fuel` provider
calls. -/
lemma processLoopAux_maxIter (provider : List Message → LLMResponse)
    (runTool : String → List (String × PyVal) → ToolResult)
    (h : ∀ ms, (provider ms).finish_reason = "tool_calls"
      ∧ (provider ms).tool_calls ≠ []) :
    ∀ (fuel : Nat) (st : LoopState),
      (processLoopAux provider runTool fuel st).1 =
        { response := apologyMessage,
          tool_calls := (processLoopAux provider runTool fuel st).2.traces,
          tokens_used := (processLoopAux provider runTool fuel st).2.tokens,
          finish_reason := "max_iterations" }
      ∧ (processLoopAux provider runTool fuel st).2.providerCalls
          = st.providerCalls + fuel := by
  intro fuel
  induction fuel with
  | zero => intro st; exact ⟨rfl, rfl⟩
  | succ fuel ih =>
    intro st
    rw [processLoopAux]
    dsimp only
    rw [if_neg (by simp [(h st.msgs).1, (h st.msgs).2])]
    refine ⟨(ih _).1, ?_⟩
    rw [(ih _).2, processToolCalls_providerCalls]
    dsimp only
    omega

/-- C3 (amended: the code's finish reason is spelled `"max_iterations"`
with an underscore, not the claim's `"max-iterations"`; and
`process_message` as a whole never reaches the loop because
`_build_messages` raises — see the counterexample and C4).  The
tool-calling loop of `process_message` makes at most 5 provider calls;
when every round ends with unresolved tool-call requests it makes exactly
5 and returns the fixed user-safe apology with the accumulated traces and
token count and `finish_reason="max_iterations"`, rather than raising or
retrying. -/
theorem claim_C3_amended (provider : List Message → LLMResponse)
    (runTool : String → List (String × PyVal) → ToolResult)
    (msgs : List Message) :
    (processLoop provider runTool msgs).2.providerCalls ≤ 5
    ∧ ((∀ ms, (provider ms).finish_reason = "tool_calls"
          ∧ (provider ms).tool_calls ≠ []) →
        (processLoop provider runTool msgs).1 =
          { response := apologyMessage,
            tool_calls := (processLoop provider runTool msgs).2.traces,
            tokens_used := (processLoop provider runTool msgs).2.tokens,
            finish_reason := "max_iterations" }
        ∧ (processLoop provider runTool msgs).2.providerCalls = 5) := by
  constructor
  · simpa using processLoopAux_calls_le provider runTool 5
      { msgs := msgs, traces := [], tokens := 0, providerCalls := 0,
        toolExecs := 0 }
  · intro h
    refine ⟨(processLoopAux_maxIter provider runTool h 5 _).1, ?_⟩
    simpa using (processLoopAux_maxIter provider runTool h 5
      { msgs := msgs, traces := [], tokens := 0, providerCalls := 0,
        toolExecs := 0 }).2

/-- Counterexample to C3 as stated: (i) every `process_message`
invocation raises (`_build_messages` evaluates the undefined
`get_compact_summary`, see C4) instead of returning; (ii) the loop's
exhaustion finish reason is the underscore spelling `"max_iterations"`,
not the claimed `"max-iterations"`. -/
theorem claim_C3_counterexample :
    let badProvider : List Message → LLMResponse := fun _ =>
      { content := none, tool_calls := [⟨"1", "get_user_profile", []⟩],
        finish_reason := "tool_calls", promptTokens := 0,
        completionTokens := 0 }
    let rt : String → List (String × PyVal) → ToolResult := fun _ _ =>
      { success := false, data := .null, error := some "db down" }
    processMessage badProvider rt "hello" { user_id := "u" } none =
      .error "AttributeError: \x27CoachContext\x27 object has no attribute \x27get_compact_summary\x27"
    ∧ (processLoop badProvider rt []).1.finish_reason ≠ "max-iterations"
    ∧ (processLoop badProvider rt []).1.finish_reason = "max_iterations"
    := by
  intro badProvider rt
  refine ⟨rfl, by decide, by decide⟩

/-- Witness for C3 on a concrete always-tool-calling provider: exactly 5
provider calls, the apology response, and the underscore finish reason. -/
theorem claim_C3_witness :
    let badProvider : List Message → LLMResponse := fun _ =>
      { content := none, tool_calls := [⟨"1", "get_user_profile", []⟩],
        finish_reason := "tool_calls", promptTokens := 2,
        completionTokens := 1 }
    let rt : String → List (String × PyVal) → ToolResult := fun _ _ =>
      { success := true, data := .int 0 }
    (processLoop badProvider rt []).2.providerCalls ≤ 5
    ∧ (processLoop badProvider rt []).1 =
        { response := apologyMessage,
          tool_calls := (processLoop badProvider rt []).2.traces,
          tokens_used := (processLoop badProvider rt []).2.tokens,
          finish_reason := "max_iterations" }
    ∧ (processLoop badProvider rt []).2.providerCalls = 5 := by
  intro badProvider rt
  have h := claim_C3_amended badProvider rt []
  have h2 := h.2 (fun _ => ⟨rfl, List.cons_ne_nil _ _⟩)
  exact ⟨h.1, h2.1, h2.2⟩

/-- C10.  At any round of the loop, a provider response whose finish
reason is not `"tool_calls"` returns immediately: the response's content
(empty string when null) with the provider-reported finish reason and the
traces accumulated so far — even when the response carries tool-call
requests, since none is executed (tool-execution counter unchanged), and
neither an assistant nor a tool message is appended (message array
unchanged). -/
theorem claim_C10 (provider : List Message → LLMResponse)
    (runTool : String → List (String × PyVal) → ToolResult)
    (fuel : Nat) (st : LoopState)
    (h : (provider st.msgs).finish_reason ≠ "tool_calls") :
    processLoopAux provider runTool (fuel + 1) st =
      ({ response := (provider st.msgs).content.getD "",
         tool_calls := st.traces,
         tokens_used := st.tokens + (provider st.msgs).promptTokens
           + (provider st.msgs).completionTokens,
         finish_reason := (provider st.msgs).finish_reason },
       { st with
         tokens := st.tokens + (provider st.msgs).promptTokens
           + (provider st.msgs).completionTokens,
         providerCalls := st.providerCalls + 1 })
    ∧ (processLoopAux provider runTool (fuel + 1) st).2.msgs = st.msgs
    ∧ (processLoopAux provider runTool (fuel + 1) st).2.toolExecs
        = st.toolExecs
    ∧ (processLoopAux provider runTool (fuel + 1) st).2.traces
        = st.traces := by
  have heq : processLoopAux provider runTool (fuel + 1) st =
      ({ response := (provider st.msgs).content.getD "",
         tool_calls := st.traces,
         tokens_used := st.tokens + (provider st.msgs).promptTokens
           + (provider st.msgs).completionTokens,
         finish_reason := (provider st.msgs).finish_reason },
       { st with
         tokens := st.tokens + (provider st.msgs).promptTokens
           + (provider st.msgs).completionTokens,
         providerCalls := st.providerCalls + 1 }) := by
    rw [processLoopAux]
    dsimp only
    rw [if_pos (by simp [h])]
  exact ⟨heq, by rw [heq], by rw [heq], by rw [heq]⟩

/-- Witness for C10: a response with finish reason `"stop"` that
nevertheless carries a tool-call request returns at once, with no tool
executed and no message appended. -/
theorem claim_C10_witness :
    let p : List Message → LLMResponse := fun _ =>
      { content := some "done", tool_calls := [⟨"1", "t", []⟩],
        finish_reason := "stop", promptTokens := 3, completionTokens := 4 }
    let rt : String → List (String × PyVal) → ToolResult := fun _ _ =>
      { success := true, data := .int 0 }
    let st0 : LoopState :=
      { msgs := [{ role := "user", content := some "m" }], traces := [],
        tokens := 0, providerCalls := 0, toolExecs := 0 }
    (processLoopAux p rt 5 st0).1 =
      { response := "done", tool_calls := [], tokens_used := 7,
        finish_reason := "stop" }
    ∧ (processLoopAux p rt 5 st0).2.msgs = st0.msgs
    ∧ (processLoopAux p rt 5 st0).2.toolExecs = 0 := by
  intro p rt st0
  have h := claim_C10 p rt 4 st0 (by decide)
  exact ⟨h.1.symm ▸ (by decide), h.2.1, h.2.2.1⟩

/-! ## Claim C4 -/

/-- C4 exhibits a defect of the source: `CoachContext` defines
`get_context_summary` but no `get_compact_summary`, yet
`_build_messages` (orchestrator.py line 410) calls
`context.get_compact_summary()` — so the message-array construction
raises `AttributeError` on *every* `CoachContext`, including the all-null
one, instead of being total as the claim (and the spec, and the
function's own docstring) state. -/
theorem claim_C4_bug (m : String) (ctx : CoachContext)
    (h : Option (List ChatMsg)) :
    buildMessages m ctx h =
      .error "AttributeError: \x27CoachContext\x27 object has no attribute \x27get_compact_summary\x27" := by
  rfl

/-! ## Claim C9 -/

/-- The spec's example weight series: seven weights on seven consecutive
days. -/
def specExampleSeries : List WeightPoint :=
  [⟨0, 80⟩, ⟨1, 80.2⟩, ⟨2, 79.8⟩, ⟨3, 80.1⟩, ⟨4, 79.9⟩, ⟨5, 80⟩,
   ⟨6, 79.7⟩]

/-- C9.  The weight-trend computation: on the spec's seven consecutive
daily weights the 7th day's moving average is the rounded arithmetic mean
of all seven values (79.96); every day whose trailing window holds fewer
than 3 samples has a null moving average; and whenever the elapsed days
are positive the weekly rate is
`round((last − first) / elapsedDays × 7, 3)`. -/
theorem claim_C9 :
    (((calculateWeightTrend specExampleSeries).data.get? 6).map
        (·.moving_average_7d)
      = some (some (round2 ((80 + 80.2 + 79.8 + 80.1 + 79.9 + 80
          + 79.7) / 7)))
     ∧ round2 ((80 + 80.2 + 79.8 + 80.1 + 79.9 + 80 + 79.7) / 7)
        = 79.96)
    ∧ (∀ (cs : List WeightPoint) (i : Nat), i < cs.length →
        (maWindow (cs.map (·.weight)) i).length < 3 →
        ((calculateWeightTrend cs).data.get? i).map (·.moving_average_7d)
          = some none)
    ∧ (∀ (c0 : WeightPoint) (rest : List WeightPoint),
        0 < ((c0 :: rest).getLast?.getD c0).date - c0.date →
        (calculateWeightTrend (c0 :: rest)).weekly_rate_of_change =
          some (round3 ((((c0 :: rest).getLast?.getD c0).weight
            - c0.weight)
            / ((((c0 :: rest).getLast?.getD c0).date - c0.date : ℤ) : ℚ)
            * 7))) := by
  refine ⟨⟨?_, ?_⟩, ?_, ?_⟩
  · have h0 : ((calculateWeightTrend specExampleSeries).data.get? 6).map
        (·.moving_average_7d)
        = some (maStored (specExampleSeries.map (·.weight)) 6) := rfl
    have hwin : maWindow (specExampleSeries.map (·.weight)) 6
        = specExampleSeries.map (·.weight) := rfl
    have hms : maStored (specExampleSeries.map (·.weight)) 6
        = some (round2 ((80 + 80.2 + 79.8 + 80.1 + 79.9 + 80 + 79.7) / 7))
        := by
      unfold maStored maRaw
      dsimp only
      rw [hwin]
      rw [if_pos (by decide :
        3 ≤ (specExampleSeries.map (·.weight)).length)]
      have hv : ((specExampleSeries.map (·.weight)).sum
          / ((specExampleSeries.map (·.weight)).length : ℚ))
          = (80 + 80.2 + 79.8 + 80.1 + 79.9 + 80 + 79.7) / 7 := by
        norm_num [specExampleSeries, List.sum_cons]
      rw [hv]
      dsimp only
      rw [if_pos (by norm_num :
        ((80 : ℚ) + 80.2 + 79.8 + 80.1 + 79.9 + 80 + 79.7) / 7 ≠ 0)]
    rw [h0, hms]
  · unfold round2
    rw [round_eq]
    norm_num
  · intro cs i hi hlen
    cases cs with
    | nil => simp at hi
    | cons c0 rest =>
      unfold calculateWeightTrend
      dsimp only
      rw [List.get?_map, List.get?_range hi]
      dsimp only [Option.map]
      unfold maStored maRaw
      dsimp only
      rw [if_neg (not_le.mpr hlen)]
  · intro c0 rest h
    unfold calculateWeightTrend
    dsimp only
    rw [if_pos h]

/-- Witness for C9 on the example series: day 1 has a null moving average
(one sample), and the weekly rate over the 6 elapsed days is −0.35
kg/week. -/
theorem claim_C9_witness :
    ((calculateWeightTrend specExampleSeries).data.get? 0).map
      (·.moving_average_7d) = some none
    ∧ (calculateWeightTrend specExampleSeries).weekly_rate_of_change
        = some (-0.35) := by
  constructor
  · exact claim_C9.2.1 specExampleSeries 0 (by decide) (by decide)
  · have h := claim_C9.2.2 ⟨0, 80⟩
      [⟨1, 80.2⟩, ⟨2, 79.8⟩, ⟨3, 80.1⟩, ⟨4, 79.9⟩, ⟨5, 80⟩, ⟨6, 79.7⟩]
      (by decide)
    refine h.trans ?_
    have hg : (((⟨0, 80⟩ : WeightPoint) ::
        [⟨1, 80.2⟩, ⟨2, 79.8⟩, ⟨3, 80.1⟩, ⟨4, 79.9⟩, ⟨5, 80⟩,
         ⟨6, 79.7⟩]).getLast?.getD ⟨0, 80⟩) = ⟨6, 79.7⟩ := rfl
    rw [hg]
    dsimp only
    norm_num [round3, round_eq]

end SleekCoach
